import Mathlib

/-!
# Verification of the hierarchical virtual-memory translation layer

A shallow embedding of `src/VirtualMemory.cpp`: a multi-level page-table
walker with on-demand frame allocation and cyclic-distance eviction, built
on a word-addressable physical-memory backend.

The embedding mirrors the C++ source function by function
(`emptyFrame`, `getOffset`, `findCyclicDistance`, `concatenatePath`,
`findFrame`, `addFrame`, `translateVirtualAddress`, `VMread`, `VMwrite`).
C++ `word_t` (signed 32-bit) values are modelled as `Int`, `uint64_t`
quantities as `Nat`; the implicit C++ conversions are made explicit through
`wordOfInt`, `wordOfNat`, `u64ofInt` and `toInt32` at exactly the places
the source converts.

The physical-memory backend (`PhysicalMemory.h`) and the configuration
constants (`MemoryConstants.h`) are not part of the repository source, so
they are modelled from the specification (sections 4.2, 6 and 9).
-/

set_option maxRecDepth 8000000
set_option maxHeartbeats 16000000

/-- Configuration constants of the exercise.  The three widths are free;
everything else is derived.  Modelled from the spec:
the `MemoryConstants.h` header is not in the repository source, so the
derived quantities follow the formulas of spec section 6. -/
structure Cfg where
  offsetWidth : Nat
  virtualAddressWidth : Nat
  physicalAddressWidth : Nat
deriving DecidableEq, Repr

/-- `PAGE_SIZE = 2^OFFSET_WIDTH`.  Modelled from the spec (section 6). -/
def PAGE_SIZE (c : Cfg) : Nat := 2 ^ c.offsetWidth

/-- `TABLES_DEPTH = ceil((VIRTUAL_ADDRESS_WIDTH - OFFSET_WIDTH) / OFFSET_WIDTH)`.
Modelled from the spec (section 6). -/
def TABLES_DEPTH (c : Cfg) : Nat :=
  (c.virtualAddressWidth - c.offsetWidth + c.offsetWidth - 1) / c.offsetWidth

/-- `NUM_FRAMES = 2^PHYSICAL_ADDRESS_WIDTH / PAGE_SIZE`.  Modelled from the
spec (section 6). -/
def NUM_FRAMES (c : Cfg) : Nat := 2 ^ c.physicalAddressWidth / PAGE_SIZE c

/-- `NUM_PAGES = 2^(VIRTUAL_ADDRESS_WIDTH - OFFSET_WIDTH)`.  Modelled from
the spec (section 6). -/
def NUM_PAGES (c : Cfg) : Nat := 2 ^ (c.virtualAddressWidth - c.offsetWidth)

/-- `VIRTUAL_MEMORY_SIZE = 2^VIRTUAL_ADDRESS_WIDTH`.  Modelled from the
spec (section 6). -/
def VIRTUAL_MEMORY_SIZE (c : Cfg) : Nat := 2 ^ c.virtualAddressWidth

/-- C++ conversion of a signed value to `uint64_t` (reduction mod `2^64`). -/
def u64ofInt (x : Int) : Nat := (x % (18446744073709551616 : Int)).toNat

/-- C++ `uint64_t` wrap-around of an unsigned computation. -/
def u64 (n : Nat) : Nat := n % 18446744073709551616

/-- C++ conversion of an integer value to the signed 32-bit `word_t`. -/
def wordOfInt (x : Int) : Int := (x + 2147483648) % 4294967296 - 2147483648

/-- C++ conversion of a `uint64_t` value to the signed 32-bit `word_t`. -/
def wordOfNat (n : Nat) : Int := wordOfInt (n : Int)

/-- C++ cast `(int)` applied to a `uint64_t` value. -/
def toInt32 (n : Nat) : Int := wordOfInt (n : Int)

/-- One call into the physical-memory backend, as observed by the core. -/
inductive PMEvent where
  | read : Nat → PMEvent
  | write : Nat → Int → PMEvent
  | evict : Nat → Nat → PMEvent
  | restore : Nat → Nat → PMEvent
deriving DecidableEq, Repr

/-- State of the physical-memory backend together with the trace of the
backend calls issued so far.  Modelled from the spec (section 4.2):
`ram` is the word-addressable physical memory, `swap` the backing store
holding the evicted copy of a page, if any. -/
structure Mem where
  ram : Nat → Int
  swap : Nat → Option (Nat → Int)
  trace : List PMEvent

/-- The backend state before `VMinitialize`: RAM words hold zero (the
simulated physical memory is allocated zero-initialized) and the backing
store is empty. -/
def initialMem : Mem where
  ram := fun _ => 0
  swap := fun _ => none
  trace := []

/-- `PMread`.  Modelled from the spec (section 4.2): returns the word at
the given physical word address. -/
def PMread (m : Mem) (a : Nat) : Int × Mem :=
  (m.ram a, { m with trace := m.trace ++ [PMEvent.read a] })

/-- `PMwrite`.  Modelled from the spec (section 4.2): stores a word at the
given physical word address. -/
def PMwrite (m : Mem) (a : Nat) (v : Int) : Mem :=
  { m with ram := fun x => if x = a then v else m.ram x,
           trace := m.trace ++ [PMEvent.write a v] }

/-- `PMevict`.  Modelled from the spec (section 4.2): copies the frame
contents out to the backing-store slot of the given page. -/
def PMevict (c : Cfg) (m : Mem) (frameIndex pageIndex : Nat) : Mem :=
  { m with
    swap := fun q => if q = pageIndex
      then some (fun o => m.ram (frameIndex * PAGE_SIZE c + o))
      else m.swap q,
    trace := m.trace ++ [PMEvent.evict frameIndex pageIndex] }

/-- `PMrestore`.  Modelled from the spec (sections 4.2 and 9): copies the
backing-store copy of the page into the frame; restoring a page that was
never evicted fills the frame with zeros. -/
def PMrestore (c : Cfg) (m : Mem) (frameIndex pageIndex : Nat) : Mem :=
  let data := (m.swap pageIndex).getD (fun _ => 0)
  { m with
    ram := fun x =>
      if frameIndex * PAGE_SIZE c ≤ x ∧ x < frameIndex * PAGE_SIZE c + PAGE_SIZE c
      then data (x - frameIndex * PAGE_SIZE c)
      else m.ram x,
    trace := m.trace ++ [PMEvent.restore frameIndex pageIndex] }

/-- `emptyFrame`: fill all `PAGE_SIZE` rows of the frame starting at
`frameAddress` with zeros. -/
def emptyFrame (c : Cfg) (m : Mem) (frameAddress : Nat) : Mem :=
  (List.range (PAGE_SIZE c)).foldl (fun m offset => PMwrite m (frameAddress + offset) 0) m

/-- `VMinitialize`: zero the root frame (frame 0). -/
def VMinit (c : Cfg) (m : Mem) : Mem :=
  emptyFrame c m 0

/-- `getOffset`: the offset is the low `OFFSET_WIDTH` bits of the address
(`virtualAddress & ((1 << OFFSET_WIDTH) - 1)`, i.e. reduction mod
`PAGE_SIZE`). -/
def getOffset (c : Cfg) (virtualAddress : Nat) : Nat :=
  virtualAddress % PAGE_SIZE c

/-- `findCyclicDistance`: minimal cyclic distance between two pages.  The
C++ computes `pageSwappedIn - pageToSwap` in `uint64_t` and reinterprets it
as `long long`, which equals the exact integer difference whenever the two
pages are below `2^63`; the result is returned as `uint64_t`. -/
def findCyclicDistance (c : Cfg) (pageSwappedIn pageToSwap : Nat) : Nat :=
  let firstDistance : Int :=
    if (pageSwappedIn : Int) - pageToSwap < 0
    then -((pageSwappedIn : Int) - pageToSwap)
    else (pageSwappedIn : Int) - pageToSwap
  let secondDistance : Int := (NUM_PAGES c : Int) - firstDistance
  u64ofInt (if firstDistance > secondDistance then secondDistance else firstDistance)

/-- `concatenatePath`: `(currentPath << OFFSET_WIDTH) + currentOffset` in
`uint64_t` arithmetic. -/
def concatenatePath (c : Cfg) (currentPath currentOffset : Nat) : Nat :=
  u64 (currentPath * PAGE_SIZE c + currentOffset)

/-- The in/out parameters threaded by reference through `findFrame`:
the running maximum frame index, the running best eviction candidate
(distance, page, parent frame, frame), the first discovered all-zero
frame, and the caller's frame variable (`word_t &currentFrameIndex`). -/
structure FindSt where
  maxFrameIndex : Int
  maxCyclicalDistance : Int
  pageToEvict : Nat
  parentOfPageToEvict : Nat
  frameToEvict : Nat
  zeroFrameIndex : Nat
  currentFrameIndex : Int
deriving DecidableEq, Repr

/-- The state updates the loop body of `findFrame` performs on one
non-zero entry `value` at slot `i` before recursing into it: the running
maximum update (`value > maxFrameIndex && value < NUM_FRAMES`) and, at the
last table level, the eviction-candidate update on strictly greater cyclic
distance. -/
def scanEntryUpdate (c : Cfg) (pageNumber level : Nat) (frameIndex : Int)
    (pathToPage i : Nat) (value : Int) (st : FindSt) : FindSt :=
  let st := if value > st.maxFrameIndex ∧ value < (NUM_FRAMES c : Int)
    then { st with maxFrameIndex := value } else st
  let updatedPathToPage := concatenatePath c pathToPage i
  if level = TABLES_DEPTH c - 1 then
    let cyclicDistance := toInt32 (findCyclicDistance c pageNumber updatedPathToPage)
    if cyclicDistance > st.maxCyclicalDistance then
      { st with maxCyclicalDistance := cyclicDistance,
                pageToEvict := updatedPathToPage,
                parentOfPageToEvict := u64ofInt frameIndex,
                frameToEvict := u64ofInt value }
    else st
  else st

/-- The `for (int i = 0; i < PAGE_SIZE; i++)` loop body of `findFrame`,
processing the remaining slot indices of the current frame.  `child` is
the recursive call into a non-zero entry (one level deeper).  Returns
`(earlyReturn, allZeroFrames, state, memory)`; `earlyReturn` is true when
the C++ hits `return` inside the loop (a zero frame was found below). -/
def findFrameScan (c : Cfg) (pageNumber : Nat) (level : Nat) (frameIndex : Int)
    (pathToPage : Nat)
    (child : Int → Int → Nat → FindSt → Mem → FindSt × Mem) :
    List Nat → FindSt → Mem → Bool → Bool × Bool × FindSt × Mem
  | [], st, m, allZeroFrames => (false, allZeroFrames, st, m)
  | i :: rest, st, m, allZeroFrames =>
    let frameAddress : Int := frameIndex * (PAGE_SIZE c : Int)
    let r := PMread m (u64ofInt (frameAddress + i))
    let value := r.1
    let m := r.2
    if value ≠ 0 then
      let st := scanEntryUpdate c pageNumber level frameIndex pathToPage i value st
      let r2 := child (frameAddress + i) value (concatenatePath c pathToPage i) st m
      let st := r2.1
      let m := r2.2
      if st.maxFrameIndex = -1 then
        (true, false, st, m)
      else
        findFrameScan c pageNumber level frameIndex pathToPage child rest st m false
    else
      findFrameScan c pageNumber level frameIndex pathToPage child rest st m allZeroFrames

/-- `findFrame`: DFS over the page-table tree that jointly computes the
maximum referenced frame, the farthest resident leaf page, and the first
reusable all-zero frame (which it detaches from its old parent and installs
at `addressToAdd` on the spot).  The recursion is driven by `fuel`, which
callers keep equal to `TABLES_DEPTH - level`, so that running out of fuel
coincides with the C++ guard `level < TABLES_DEPTH` failing. -/
def findFrame (c : Cfg) (pageNumber : Nat) :
    (fuel : Nat) → (parentAddress : Int) → (level : Nat) →
    (currFrameOffset : Nat) → (frameIndex : Int) → (pathToPage : Nat) →
    (forbiddenFrame : Nat) → (addressToAdd : Nat) → FindSt → Mem → FindSt × Mem
  | 0, _, _, _, _, _, _, _, st, m => (st, m)
  | fuel + 1, parentAddress, level, currFrameOffset, frameIndex, pathToPage,
      forbiddenFrame, addressToAdd, st, m =>
    if level < TABLES_DEPTH c then
      let r := findFrameScan c pageNumber level frameIndex pathToPage
        (fun pa v path st m =>
          findFrame c pageNumber fuel pa (level + 1) currFrameOffset v path
            forbiddenFrame addressToAdd st m)
        (List.range (PAGE_SIZE c)) st m true
      let earlyReturn := r.1
      let allZeroFrames := r.2.1
      let st := r.2.2.1
      let m := r.2.2.2
      if earlyReturn then (st, m)
      else if allZeroFrames ∧ st.maxFrameIndex ≠ -1 ∧ u64ofInt frameIndex ≠ forbiddenFrame then
        let st := { st with currentFrameIndex := wordOfInt frameIndex,
                            maxFrameIndex := -1,
                            zeroFrameIndex := u64ofInt frameIndex }
        let m := if parentAddress ≠ -1 then PMwrite m (u64ofInt parentAddress) 0 else m
        let m := PMwrite m addressToAdd (wordOfInt frameIndex)
        (st, m)
      else (st, m)
    else (st, m)

/-- `addFrame`: run the selector from the root and then apply exactly one
of the three allocation strategies (reclaim the adopted all-zero frame,
take the fresh frame `maxFrameIndex + 1`, or evict the farthest resident
page).  Returns the caller's new `frameIndex` (`word_t &currentFrameIndex`),
the new `forbiddenFrame`, and the memory. -/
def addFrame (c : Cfg) (pageNumber currFrameOffset : Nat) (level : Nat)
    (forbiddenFrame : Nat) (currentFrameIndex : Int) (addressToAddTo : Nat)
    (m : Mem) : Int × Nat × Mem :=
  let st0 : FindSt :=
    { maxFrameIndex := 0, maxCyclicalDistance := -1,
      pageToEvict := 0, parentOfPageToEvict := 0, frameToEvict := 0,
      zeroFrameIndex := u64ofInt (-1), currentFrameIndex := currentFrameIndex }
  let r := findFrame c pageNumber (TABLES_DEPTH c) (-1) 0 currFrameOffset 0 0
    forbiddenFrame addressToAddTo st0 m
  let st := r.1
  let m := r.2
  if st.maxFrameIndex = -1 then
    if level = TABLES_DEPTH c - 1 then
      (st.currentFrameIndex, forbiddenFrame, PMrestore c m st.zeroFrameIndex pageNumber)
    else
      (st.currentFrameIndex, st.zeroFrameIndex,
        emptyFrame c m (u64 (st.zeroFrameIndex * PAGE_SIZE c)))
  else if st.maxFrameIndex + 1 < (NUM_FRAMES c : Int) then
    let m := PMwrite m addressToAddTo (wordOfInt (st.maxFrameIndex + 1))
    if level = TABLES_DEPTH c - 1 then
      (wordOfInt (st.maxFrameIndex + 1), forbiddenFrame,
        PMrestore c m (u64ofInt (st.maxFrameIndex + 1)) pageNumber)
    else
      (wordOfInt (st.maxFrameIndex + 1), u64ofInt (st.maxFrameIndex + 1),
        emptyFrame c m (u64ofInt ((st.maxFrameIndex + 1) * (PAGE_SIZE c : Int))))
  else
    let m := PMevict c m st.frameToEvict st.pageToEvict
    let m := PMwrite m (u64 (st.parentOfPageToEvict * PAGE_SIZE c + getOffset c st.pageToEvict)) 0
    let m := PMwrite m addressToAddTo (wordOfNat st.frameToEvict)
    if level = TABLES_DEPTH c - 1 then
      (wordOfNat st.frameToEvict, forbiddenFrame, PMrestore c m st.frameToEvict pageNumber)
    else
      (wordOfNat st.frameToEvict, st.frameToEvict,
        emptyFrame c m (u64 (st.frameToEvict * PAGE_SIZE c)))

/-- The `for (int level = 0; level < TABLES_DEPTH; level++)` walk of
`translateVirtualAddress`, over the list of remaining levels.  State:
current `frameIndex` (`word_t`), `forbiddenFrame`, memory. -/
def translateLoop (c : Cfg) (pageNumber virtualAddress : Nat) :
    List Nat → Int → Nat → Mem → Int × Nat × Mem
  | [], frameIndex, forbiddenFrame, m => (frameIndex, forbiddenFrame, m)
  | level :: rest, frameIndex, forbiddenFrame, m =>
    let numBitsToShift := (TABLES_DEPTH c - level) * c.offsetWidth
    let currFrameOffset := (virtualAddress >>> numBitsToShift) % PAGE_SIZE c
    let addressToAddTo := u64ofInt (frameIndex * (PAGE_SIZE c : Int) + currFrameOffset)
    let r := PMread m (u64ofInt (frameIndex * (PAGE_SIZE c : Int) + currFrameOffset))
    let frameIndex := r.1
    let m := r.2
    if frameIndex = 0 then
      let r2 := addFrame c pageNumber currFrameOffset level forbiddenFrame frameIndex
        addressToAddTo m
      translateLoop c pageNumber virtualAddress rest r2.1 r2.2.1 r2.2.2
    else
      translateLoop c pageNumber virtualAddress rest frameIndex forbiddenFrame m

/-- `translateVirtualAddress`: walk the tree level by level from frame 0,
allocating through `addFrame` wherever the parent slot holds 0, and return
the physical word address of the virtual address. -/
def translateVirtualAddress (c : Cfg) (virtualAddress : Nat) (m : Mem) : Nat × Mem :=
  let pageNumber := virtualAddress >>> c.offsetWidth
  let r := translateLoop c pageNumber virtualAddress
    (List.range (TABLES_DEPTH c)) 0 0 m
  let frameIndex := r.1
  let m := r.2.2
  let pageOffset := getOffset c virtualAddress
  (u64ofInt (frameIndex * (PAGE_SIZE c : Int) + pageOffset), m)

/-- `VMread`: validate (`value` pointer non-null, address in range), then
translate and read.  The null pointer of the C++ signature is modelled by
the flag `valueIsNull`; the result word is returned as an `Option Int`. -/
def VMread (c : Cfg) (virtualAddress : Nat) (valueIsNull : Bool) (m : Mem) :
    Int × Option Int × Mem :=
  if valueIsNull = true ∨ virtualAddress ≥ VIRTUAL_MEMORY_SIZE c then (0, none, m)
  else
    let r := translateVirtualAddress c virtualAddress m
    let r2 := PMread r.2 r.1
    (1, some r2.1, r2.2)

/-- `VMwrite`: validate the address, then translate and write. -/
def VMwrite (c : Cfg) (virtualAddress : Nat) (value : Int) (m : Mem) : Int × Mem :=
  if virtualAddress ≥ VIRTUAL_MEMORY_SIZE c then (0, m)
  else
    let r := translateVirtualAddress c virtualAddress m
    (1, PMwrite r.2 r.1 value)

/-- A public-API operation: a translated write or a translated read (with a
valid out pointer). -/
inductive Op where
  | write : Nat → Int → Op
  | readOp : Nat → Op
deriving DecidableEq, Repr

/-- Apply one public-API operation to the memory. -/
def runOp (c : Cfg) (m : Mem) (op : Op) : Mem :=
  match op with
  | Op.write va v => (VMwrite c va v m).2
  | Op.readOp va => (VMread c va false m).2.2

/-- Run `VMinitialize` followed by a list of public-API operations. -/
def runOps (c : Cfg) (ops : List Op) : Mem :=
  ops.foldl (runOp c) (VMinit c initialMem)

/-- The list of leaf entries (`(page, parentFrame, frame)` triples) visited
by the selector's DFS, in visiting order: for each non-zero entry of the
current frame, the entry itself when the frame sits at the last table
level, followed by the entries found in the recursion.  `childLeaves` is
the contribution of one child (instantiated with `dfsLeaves` one level
deeper). -/
def scanLeaves (c : Cfg) (level : Nat) (frameIndex : Int) (pathToPage : Nat)
    (childLeaves : Int → Nat → (Nat → Int) → List (Nat × Nat × Nat))
    (ram : Nat → Int) : List Nat → List (Nat × Nat × Nat)
  | [] => []
  | i :: rest =>
    let value := ram (u64ofInt (frameIndex * (PAGE_SIZE c : Int) + i))
    (if value = 0 then []
     else
      (if level = TABLES_DEPTH c - 1 then
        [(concatenatePath c pathToPage i, u64ofInt frameIndex, u64ofInt value)]
       else []) ++ childLeaves value (concatenatePath c pathToPage i) ram)
    ++ scanLeaves c level frameIndex pathToPage childLeaves ram rest

/-- All leaf entries `(page, parentFrame, frame)` reached by the DFS of the
page-table tree in visiting order — the resident leaf pages the selector
can see.  Mirrors the traversal order of `findFrame`. -/
def dfsLeaves (c : Cfg) : (fuel : Nat) → (level : Nat) → (frameIndex : Int) →
    (pathToPage : Nat) → (ram : Nat → Int) → List (Nat × Nat × Nat)
  | 0, _, _, _, _ => []
  | fuel + 1, level, frameIndex, pathToPage, ram =>
    if level < TABLES_DEPTH c then
      scanLeaves c level frameIndex pathToPage
        (fun v p ram => dfsLeaves c fuel (level + 1) v p ram) ram
        (List.range (PAGE_SIZE c))
    else []

/-- All parent-slot references of the reachable page-table tree: pairs of
(slot physical address, stored non-zero child value), over the DFS of the
tree from the given frame through the table levels.  Modelled from the
spec (section 3, "Page-Table Tree"): slots of reachable table frames at
depth below `TABLES_DEPTH` are the parent slots of the tree. -/
def dfsRefs (c : Cfg) : (fuel : Nat) → (level : Nat) → (frameIndex : Int) →
    (ram : Nat → Int) → List (Nat × Int)
  | 0, _, _, _ => []
  | fuel + 1, level, frameIndex, ram =>
    if level < TABLES_DEPTH c then
      (List.range (PAGE_SIZE c)).foldr (fun i acc =>
        let a := u64ofInt (frameIndex * (PAGE_SIZE c : Int) + i)
        let value := ram a
        (if value = 0 then [] else (a, value) :: dfsRefs c fuel (level + 1) value ram) ++ acc) []
    else []

/-- The running eviction candidate maintained by the selector: best
distance so far and the corresponding (page, parent frame, frame). -/
structure VictimAcc where
  maxCyclicalDistance : Int
  pageToEvict : Nat
  parentOfPageToEvict : Nat
  frameToEvict : Nat
deriving DecidableEq, Repr

/-- The eviction-candidate fields of a selector state. -/
def victimOf (st : FindSt) : VictimAcc :=
  ⟨st.maxCyclicalDistance, st.pageToEvict, st.parentOfPageToEvict, st.frameToEvict⟩

/-- The distance the selector attributes to a visited leaf entry: the
cyclic distance between the faulting page and the leaf's page, cast to
`int` as the source does. -/
def leafDistance (c : Cfg) (pageNumber : Nat) (leaf : Nat × Nat × Nat) : Int :=
  toInt32 (findCyclicDistance c pageNumber leaf.1)

/-- One update of the eviction candidate: replace it exactly when the new
leaf's distance is strictly greater than the best so far. -/
def victimStep (c : Cfg) (pageNumber : Nat) (acc : VictimAcc) (leaf : Nat × Nat × Nat) :
    VictimAcc :=
  if leafDistance c pageNumber leaf > acc.maxCyclicalDistance then
    ⟨leafDistance c pageNumber leaf, leaf.1, leaf.2.1, leaf.2.2⟩
  else acc

/-- Fold of the eviction-candidate update over a list of visited leaves. -/
def victimFold (c : Cfg) (pageNumber : Nat) (acc : VictimAcc)
    (leaves : List (Nat × Nat × Nat)) : VictimAcc :=
  leaves.foldl (victimStep c pageNumber) acc

/-- The selector run exactly as `addFrame` performs it: `findFrame` from
the root with the initial in/out state of `addFrame`. -/
def selectorRun (c : Cfg) (pageNumber currFrameOffset forbiddenFrame : Nat)
    (currentFrameIndex : Int) (addressToAddTo : Nat) (m : Mem) : FindSt × Mem :=
  findFrame c pageNumber (TABLES_DEPTH c) (-1) 0 currFrameOffset 0 0
    forbiddenFrame addressToAddTo
    { maxFrameIndex := 0, maxCyclicalDistance := -1,
      pageToEvict := 0, parentOfPageToEvict := 0, frameToEvict := 0,
      zeroFrameIndex := u64ofInt (-1), currentFrameIndex := currentFrameIndex } m

/-- The selector state `addFrame` inspects after running `findFrame`. -/
def selectorResult (c : Cfg) (pageNumber currFrameOffset forbiddenFrame : Nat)
    (currentFrameIndex : Int) (addressToAddTo : Nat) (m : Mem) : FindSt :=
  (selectorRun c pageNumber currFrameOffset forbiddenFrame currentFrameIndex addressToAddTo m).1

/-- The representative configuration of the spec's end-to-end scenarios:
`OFFSET_WIDTH = 1`, `VIRTUAL_ADDRESS_WIDTH = 5`, `PHYSICAL_ADDRESS_WIDTH = 3`
(so `TABLES_DEPTH = 4`, `PAGE_SIZE = 2`, `NUM_FRAMES = 4`, `NUM_PAGES = 16`). -/
def c153 : Cfg := ⟨1, 5, 3⟩

/-- A small non-degenerate configuration (`NUM_FRAMES = 8 > 3 = TABLES_DEPTH`):
`OFFSET_WIDTH = 1`, `VIRTUAL_ADDRESS_WIDTH = 4`, `PHYSICAL_ADDRESS_WIDTH = 4`
(so `TABLES_DEPTH = 3`, `PAGE_SIZE = 2`, `NUM_FRAMES = 8`, `NUM_PAGES = 8`,
`VIRTUAL_MEMORY_SIZE = 16`). -/
def c144 : Cfg := ⟨1, 4, 4⟩

/-- Prefix of writes after which the round-trip of `write(15, 1)` fails in
configuration `c144`. -/
def roundTripPrefixOps : List Op := [Op.write 3 4, Op.write 12 7, Op.write 6 1]

/-- Write sequence in `c144` after which two distinct parent slots of the
reachable page-table tree reference frame 3. -/
def dupRefOps : List Op :=
  [Op.write 12 7, Op.write 15 4, Op.write 9 4, Op.write 11 5, Op.write 6 5,
   Op.write 4 7, Op.write 3 5, Op.write 8 5, Op.write 2 7, Op.write 10 4,
   Op.write 3 3, Op.write 13 3]

/-- Write sequence in `c144` during which frame 0 (the root table) is
passed to `PMevict` and then overwritten through `PMrestore`. -/
def rootEvictOps : List Op :=
  [Op.write 13 1, Op.write 15 4, Op.write 9 4, Op.write 11 5, Op.write 6 5,
   Op.write 4 7, Op.write 3 5, Op.write 8 5, Op.write 2 7, Op.write 10 4,
   Op.write 3 3, Op.write 13 3]

/-- Prefix of `rootEvictOps` before its final operation `write(13, 3)`,
whose translation reaches the eviction case with no resident leaf found. -/
def dummyEvictPrefixOps : List Op :=
  [Op.write 13 1, Op.write 15 4, Op.write 9 4, Op.write 11 5, Op.write 6 5,
   Op.write 4 7, Op.write 3 5, Op.write 8 5, Op.write 2 7, Op.write 10 4,
   Op.write 3 3]

/-- Write sequence (values include 100) in `c144` after which a translation
passes the out-of-range physical address 200 to the backend. -/
def oobOps : List Op :=
  [Op.write 12 100, Op.write 1 1, Op.write 11 3, Op.write 2 3, Op.write 2 2,
   Op.write 3 100, Op.write 11 100, Op.write 9 100, Op.write 10 1]

/-- Prefix of writes in `c144` after which the translation of address 0
commits frame 7 at two different levels of the same walk. -/
def forbiddenRepeatPrefixOps : List Op :=
  [Op.write 11 5, Op.write 12 1, Op.write 14 4, Op.write 2 3, Op.write 11 1]

/-- The memory after the spec's scenario S1 (`VMinitialize`; `write(13, 3)`)
in the representative configuration `c153`. -/
def s1Mem : Mem := (VMwrite c153 13 3 (VMinit c153 initialMem)).2

/-- The memory after `dummyEvictPrefixOps` in `c144`. -/
def dummyEvictMem : Mem := runOps c144 dummyEvictPrefixOps

/-- First walk step of the translation of address 13 from `dummyEvictMem`:
the root slot 1 is read (it holds 7, no allocation). -/
def dummyEvictStepA : Mem := (PMread dummyEvictMem 1).2

/-- Second walk step: slot 1 of frame 7 (address 15) is read; it holds 0. -/
def dummyEvictStepB : Mem := (PMread dummyEvictStepA 15).2

/-- The level-1 allocation of that translation
(`addFrame(page 6, level 1, forbidden 0, parent slot 15)`). -/
def dummyEvictAlloc1 : Int × Nat × Mem := addFrame c144 6 1 1 0 0 15 dummyEvictStepB

/-- Third walk step: slot 0 of the frame just installed (address 4) is
read; it holds 0. -/
def dummyEvictStepC : Mem := (PMread dummyEvictAlloc1.2.2 4).2

/-- The selector state of the level-2 (leaf-level) allocation of that
translation. -/
def dummyEvictSelector : FindSt :=
  selectorResult c144 6 0 dummyEvictAlloc1.2.1 0 4 dummyEvictStepC

/-- The level-2 (leaf-level) allocation of that translation
(`addFrame(page 6, level 2, parent slot 4)`). -/
def dummyEvictAlloc2 : Int × Nat × Mem :=
  addFrame c144 6 0 2 dummyEvictAlloc1.2.1 0 4 dummyEvictStepC

/-- The memory after `forbiddenRepeatPrefixOps` in `c144`. -/
def forbiddenRepeatMem : Mem := runOps c144 forbiddenRepeatPrefixOps

/-- First walk step of the translation of address 0 from
`forbiddenRepeatMem`: the root slot 0 is read (it holds 7). -/
def frStepA : Mem := (PMread forbiddenRepeatMem 0).2

/-- Second walk step: slot 0 of frame 7 (address 14) is read; it holds 0. -/
def frStepB : Mem := (PMread frStepA 14).2

/-- The selector state of the level-1 allocation of that translation. -/
def frSelector1 : FindSt := selectorResult c144 0 0 0 0 14 frStepB

/-- The level-1 allocation of that translation
(`addFrame(page 0, level 1, forbidden 0, parent slot 14)`). -/
def frAlloc1 : Int × Nat × Mem := addFrame c144 0 0 1 0 0 14 frStepB

/-- Third walk step: address 14 is read again (the walk continues into the
frame just committed, whose slots were zeroed); it holds 0. -/
def frStepC : Mem := (PMread frAlloc1.2.2 14).2

/-- The selector state of the level-2 (leaf-level) allocation of that
translation. -/
def frSelector2 : FindSt := selectorResult c144 0 0 frAlloc1.2.1 0 14 frStepC

/-- The level-2 (leaf-level) allocation of that translation. -/
def frAlloc2 : Int × Nat × Mem :=
  addFrame c144 0 0 2 frAlloc1.2.1 0 14 frStepC

/-- The freshly initialized memory in the representative configuration. -/
def s1Init : Mem := VMinit c153 initialMem

/-- Walk steps and allocations of the translation of address 13 (scenario
S1) from the freshly initialized memory: level 0 reads root slot 0. -/
def s1StepA : Mem := (PMread s1Init 0).2

/-- Level-0 allocation of S1 (`addFrame(page 6, level 0, parent slot 0)`). -/
def s1Alloc0 : Int × Nat × Mem := addFrame c153 6 0 0 0 0 0 s1StepA

/-- Level 1 of S1 reads slot 1 of frame 1 (address 3). -/
def s1StepB : Mem := (PMread s1Alloc0.2.2 3).2

/-- Level-1 allocation of S1. -/
def s1Alloc1 : Int × Nat × Mem := addFrame c153 6 1 1 s1Alloc0.2.1 0 3 s1StepB

/-- Level 2 of S1 reads slot 1 of frame 2 (address 5). -/
def s1StepC : Mem := (PMread s1Alloc1.2.2 5).2

/-- Level-2 allocation of S1. -/
def s1Alloc2 : Int × Nat × Mem := addFrame c153 6 1 2 s1Alloc1.2.1 0 5 s1StepC

/-- Level 3 (leaf level) of S1 reads slot 0 of frame 3 (address 6). -/
def s1StepD : Mem := (PMread s1Alloc2.2.2 6).2

/-- The selector state of the leaf-level allocation of S1. -/
def s1Selector3 : FindSt := selectorResult c153 6 0 s1Alloc2.2.1 0 6 s1StepD

/-- The leaf-level allocation of S1. -/
def s1Alloc3 : Int × Nat × Mem := addFrame c153 6 0 3 s1Alloc2.2.1 0 6 s1StepD

/-- The memory after `roundTripPrefixOps` followed by `write(15, 1)` in
`c144`. -/
def roundTripMem : Mem := (VMwrite c144 15 1 (runOps c144 roundTripPrefixOps)).2

/-- A page-table tree in configuration `c144` using all eight frames:
frames 0, 1, 2, 4, 5 are tables and frames 3, 6, 7 hold the resident leaf
pages 0, 1 and 4. -/
def c2wRam : Nat → Int := fun a =>
  if a = 0 then 1 else if a = 1 then 4 else if a = 2 then 2
  else if a = 4 then 3 else if a = 5 then 6
  else if a = 8 then 5 else if a = 10 then 7 else 0

/-- Memory holding `c2wRam` with an empty backing store and trace. -/
def c2wMem : Mem := { ram := c2wRam, swap := fun _ => none, trace := [] }

/-- The selector state produced on `c2wMem` for faulting page 7. -/
def c2wSt : FindSt := selectorResult c144 7 0 1 0 3 c2wMem


/-- C1.  The round-trip through the public API fails on the code: in the
non-degenerate configuration `c144` (`NUM_FRAMES = 8 > 3 = TABLES_DEPTH`),
after `VMinitialize` and the valid writes `write(3,4)`, `write(12,7)`,
`write(6,1)`, the call `write(15, 1)` succeeds (returns 1), yet the
immediately following `read(15)` succeeds and returns 0, not 1.  (The
prefix corrupts the page-table tree: an attached all-zero table is adopted
during its own walk, so the written word lands in a frame that is no
longer reachable from the root.) -/
theorem C1_writeReadRoundTripFails :
    TABLES_DEPTH c144 < NUM_FRAMES c144 ∧
    15 < VIRTUAL_MEMORY_SIZE c144 ∧
    (VMwrite c144 15 1 (runOps c144 roundTripPrefixOps)).1 = 1 ∧
    (VMread c144 15 false roundTripMem).1 = 1 ∧
    (VMread c144 15 false roundTripMem).2.1 = some 0 := by
  refine ⟨by decide, by decide, by decide, by decide, ?_⟩
  decide

/-- C5.  After the valid write sequence `dupRefOps` in the non-degenerate
configuration `c144`, two distinct parent slots of the reachable
page-table tree reference the same non-root frame 3: physical address 1
(slot 1 of the root) and physical address 7 (slot 1 of frame 3 itself,
which the root reaches at depth 1) both store 3. -/
theorem C5_duplicateParentSlotReferences :
    TABLES_DEPTH c144 < NUM_FRAMES c144 ∧
    (1, (3 : Int)) ∈ dfsRefs c144 (TABLES_DEPTH c144) 0 0 (runOps c144 dupRefOps).ram ∧
    (7, (3 : Int)) ∈ dfsRefs c144 (TABLES_DEPTH c144) 0 0 (runOps c144 dupRefOps).ram ∧
    (1 : Nat) ≠ 7 ∧ (3 : Int) ≠ 0 := by
  refine ⟨by decide, ?_, ?_, by decide, by decide⟩ <;> decide

/-- C7.  Frame 0 does not permanently remain the root page table: during
the valid write sequence `rootEvictOps` in the non-degenerate
configuration `c144`, frame 0 is selected as the eviction victim (the
backend call `evict(0, 0)` occurs) and its contents are then overwritten
wholesale by `restore(0, 6)` — not through a table-installation write. -/
theorem C7_rootFrameEvicted :
    TABLES_DEPTH c144 < NUM_FRAMES c144 ∧
    PMEvent.evict 0 0 ∈ (runOps c144 rootEvictOps).trace ∧
    PMEvent.restore 0 6 ∈ (runOps c144 rootEvictOps).trace := by
  refine ⟨by decide, ?_, ?_⟩ <;> decide

/-- C10.  A physical word address at or beyond `NUM_FRAMES * PAGE_SIZE`
is passed to the backend: in the non-degenerate configuration `c144`
(bound `8 * 2 = 16`), the valid write sequence `oobOps` (storing the data
value 100, which corruption later exposes as a "frame index") makes the
core call `PMread` on physical address `200 = 100 * PAGE_SIZE`. -/
theorem C10_backendAddressOutOfBounds :
    TABLES_DEPTH c144 < NUM_FRAMES c144 ∧
    NUM_FRAMES c144 * PAGE_SIZE c144 = 16 ∧
    PMEvent.read 200 ∈ (runOps c144 oobOps).trace := by
  refine ⟨by decide, by decide, ?_⟩
  decide

/-- C9 (counterexample).  Scenario S1 does not leave the memory the claim
describes: in the representative configuration `c153`, after a fresh
`VMinitialize` and `write(13, 3)`, the physical words at addresses
`2*1+0 = 2`, `2*2+1 = 5` and `2*3+1 = 7` are 0, 3 and 0 — not the claimed
1, 2 and 3. -/
theorem C9_s1ExpectedValuesFail :
    ¬ (s1Mem.ram 2 = 1 ∧ s1Mem.ram 5 = 2 ∧ s1Mem.ram 7 = 3) := by
  decide

/-- C9 (as amended).  What scenario S1 actually does: the walk of address
13 uses slots `(0,1,1,0)` and leaf offset 1; levels 0..2 materialize the
table frames 1, 2, 3 (leaving `memory[0]=1`, `memory[3]=2`, `memory[5]=3`
at that point), but the leaf level finds no free frame and no resident
leaf page and so evicts the dummy victim — frame 0, the root — zeroing
root slot 0 and restoring page 13 (never evicted, hence zero-filled) into
frame 0; the written word 3 lands at physical address 1.  The final
memory is `[0,3,0,2,0,3,0,0]`, and `read(13)` afterwards returns 0. -/
theorem C9_s1ActualBehavior :
    ((13 >>> 4) % 2, (13 >>> 3) % 2, (13 >>> 2) % 2, (13 >>> 1) % 2) = (0, 1, 1, 0) ∧
    getOffset c153 13 = 1 ∧
    (VMwrite c153 13 3 (VMinit c153 initialMem)).1 = 1 ∧
    PMEvent.evict 0 0 ∈ s1Mem.trace ∧
    PMEvent.restore 0 6 ∈ s1Mem.trace ∧
    (List.range 8).map s1Mem.ram = [0, 3, 0, 2, 0, 3, 0, 0] ∧
    (VMread c153 13 false s1Mem).1 = 1 ∧
    (VMread c153 13 false s1Mem).2.1 = some 0 := by
  refine ⟨by decide, by decide, by decide, ?_, ?_, by decide, by decide, ?_⟩ <;> decide

/-- C8.  The eviction case is reached with the best-distance tracker still
at its initial −1 and the victim triple still holding its dummy initial
zeros, in a reachable state of the non-degenerate configuration `c144`
(`NUM_FRAMES = 8 > 3 = TABLES_DEPTH`): during the translation of address
13 after `dummyEvictPrefixOps`, the leaf-level allocation finds
`maxFrameIndex = 7` (so `7 + 1 ≥ NUM_FRAMES`, no adoption), no visited
resident leaf (`dfsLeaves = []`, `maxCyclicalDistance = −1`), and evicts
the dummy triple `(page 0, parent 0, frame 0)` — frame 0 is the root, not
a resident leaf page.  The composed walk steps are exactly the ones the
translation performs (its backend-call count, visible memory and result coincide with the
unrolled composition). -/
theorem C8_evictionCaseWithDummyVictim :
    TABLES_DEPTH c144 < NUM_FRAMES c144 ∧
    dummyEvictSelector.maxFrameIndex = 7 ∧
    ¬ dummyEvictSelector.maxFrameIndex + 1 < (NUM_FRAMES c144 : Int) ∧
    dummyEvictSelector.maxCyclicalDistance = -1 ∧
    (dummyEvictSelector.pageToEvict, dummyEvictSelector.parentOfPageToEvict,
      dummyEvictSelector.frameToEvict) = (0, 0, 0) ∧
    dfsLeaves c144 (TABLES_DEPTH c144) 0 0 0 dummyEvictStepC.ram = [] ∧
    PMEvent.evict 0 0 ∈ dummyEvictAlloc2.2.2.trace ∧
    (translateVirtualAddress c144 13 dummyEvictMem).2.trace.length =
      dummyEvictAlloc2.2.2.trace.length ∧
    (List.range 16).map (translateVirtualAddress c144 13 dummyEvictMem).2.ram =
      (List.range 16).map dummyEvictAlloc2.2.2.ram ∧
    (translateVirtualAddress c144 13 dummyEvictMem).1 = 1 := by
  refine ⟨by decide, ?_, ?_, ?_, ?_, ?_, ?_, ?_, ?_, ?_⟩ <;> decide

/-- C6.  A frame committed for reuse as a table at one level is chosen
again at a deeper level of the same translation: after
`forbiddenRepeatPrefixOps` in the non-degenerate configuration `c144`, the
translation of address 0 adopts frame 7 as a reclaimed empty table at
level 1 (an internal level, `1 ≠ TABLES_DEPTH − 1`, selector adoption
`maxFrameIndex = −1`, `zeroFrameIndex = 7`), and then the level-2
allocation of the same walk picks frame 7 again as the "fresh" frame
(`maxFrameIndex = 6`, `6 + 1 = 7 < NUM_FRAMES`), because the adopted frame
was installed into a slot that the selector's DFS can no longer reach.
The composed walk steps are exactly the ones the translation performs. -/
theorem C6_forbiddenFrameRecommitted :
    TABLES_DEPTH c144 < NUM_FRAMES c144 ∧
    frSelector1.maxFrameIndex = -1 ∧
    frSelector1.zeroFrameIndex = 7 ∧
    (1 : Nat) ≠ TABLES_DEPTH c144 - 1 ∧
    frAlloc1.1 = 7 ∧ frAlloc1.2.1 = 7 ∧
    frSelector2.maxFrameIndex = 6 ∧
    frAlloc2.1 = 7 ∧
    (translateVirtualAddress c144 0 forbiddenRepeatMem).2.trace.length =
      frAlloc2.2.2.trace.length ∧
    (List.range 16).map (translateVirtualAddress c144 0 forbiddenRepeatMem).2.ram =
      (List.range 16).map frAlloc2.2.2.ram ∧
    (translateVirtualAddress c144 0 forbiddenRepeatMem).1 = 14 := by
  refine ⟨by decide, ?_, ?_, by decide, ?_, ?_, ?_, ?_, ?_, ?_, ?_⟩ <;> decide

/-- C2 (counterexample).  A translation takes the eviction case while the
DFS visited no resident leaf page at all, so the evicted page is not a
resident leaf page maximizing the cyclic distance: in the representative
configuration `c153`, the leaf-level allocation of the very first
`write(13, 3)` after `VMinitialize` has `maxFrameIndex = 3` (no adoption,
`3 + 1 ≥ NUM_FRAMES = 4`), an empty visited-leaf list and the tracker
still at −1, and it evicts the dummy victim `(page 0, parent 0, frame 0)`
— and `(0, 0, 0)` is not an element of the (empty) visited-leaf list.
The composed walk steps are exactly the ones the translation performs. -/
theorem C2_evictionWithoutResidentLeaf :
    s1Selector3.maxFrameIndex = 3 ∧
    ¬ s1Selector3.maxFrameIndex + 1 < (NUM_FRAMES c153 : Int) ∧
    s1Selector3.maxCyclicalDistance = -1 ∧
    dfsLeaves c153 (TABLES_DEPTH c153) 0 0 0 s1StepD.ram = [] ∧
    (s1Selector3.pageToEvict, s1Selector3.parentOfPageToEvict,
      s1Selector3.frameToEvict) ∉ dfsLeaves c153 (TABLES_DEPTH c153) 0 0 0 s1StepD.ram ∧
    PMEvent.evict 0 0 ∈ s1Alloc3.2.2.trace ∧
    (translateVirtualAddress c153 13 s1Init).2.trace.length = s1Alloc3.2.2.trace.length ∧
    (List.range 8).map (translateVirtualAddress c153 13 s1Init).2.ram =
      (List.range 8).map s1Alloc3.2.2.ram ∧
    (translateVirtualAddress c153 13 s1Init).1 = 1 := by
  refine ⟨by decide, ?_, ?_, ?_, ?_, ?_, ?_, ?_, ?_⟩ <;> decide

/-- C4.  For every virtual address at or beyond `VIRTUAL_MEMORY_SIZE`,
`VMwrite` and `VMread` return the not-ok value 0 and leave the memory —
and with it the backend-call trace — untouched (so no `PMread`, `PMwrite`,
`PMevict` or `PMrestore` is performed); `VMread` behaves the same way on
any address when its out pointer is null. -/
theorem C4_validationRejectsWithoutSideEffects (c : Cfg) (va va2 : Nat) (w : Int)
    (isNull : Bool) (m : Mem) (h : VIRTUAL_MEMORY_SIZE c ≤ va) :
    VMwrite c va w m = (0, m) ∧
    VMread c va isNull m = (0, none, m) ∧
    VMread c va2 true m = (0, none, m) ∧
    (VMwrite c va w m).2.trace = m.trace ∧
    (VMread c va isNull m).2.2.trace = m.trace := by
  have h1 : VMwrite c va w m = (0, m) := by
    unfold VMwrite
    rw [if_pos h]
  have h2 : VMread c va isNull m = (0, none, m) := by
    unfold VMread
    rw [if_pos (Or.inr h)]
  have h3 : VMread c va2 true m = (0, none, m) := by
    unfold VMread
    rw [if_pos (Or.inl rfl)]
  exact ⟨h1, h2, h3, by rw [h1], by rw [h2]⟩

/-- Witness for C4 at a concrete input: in configuration `c144`
(`VIRTUAL_MEMORY_SIZE = 16`), `write(16, 5)` and `read(16)` reject and
leave the freshly initialized memory untouched, as does `read(3)` with a
null out pointer. -/
theorem C4_validationRejectsWithoutSideEffects_witness :
    VIRTUAL_MEMORY_SIZE c144 ≤ 16 ∧
    VMwrite c144 16 5 (VMinit c144 initialMem) = (0, VMinit c144 initialMem) ∧
    VMread c144 16 false (VMinit c144 initialMem) = (0, none, VMinit c144 initialMem) ∧
    VMread c144 3 true (VMinit c144 initialMem) = (0, none, VMinit c144 initialMem) :=
  ⟨by decide,
   (C4_validationRejectsWithoutSideEffects c144 16 3 5 false (VMinit c144 initialMem)
     (by decide)).1,
   (C4_validationRejectsWithoutSideEffects c144 16 3 5 false (VMinit c144 initialMem)
     (by decide)).2.1,
   (C4_validationRejectsWithoutSideEffects c144 16 3 5 false (VMinit c144 initialMem)
     (by decide)).2.2.1⟩

/-- Folding zero-writes over a list of offsets zeroes exactly the written
addresses and leaves the rest of RAM unchanged. -/
theorem zeroFoldl_ram (base : Nat) :
    ∀ (l : List Nat) (m : Mem) (a : Nat),
    ((l.foldl (fun m offset => PMwrite m (base + offset) 0) m).ram a)
      = if a ∈ l.map (base + ·) then 0 else m.ram a := by
  intro l
  induction l with
  | nil => intro m a; simp
  | cons i rest ih =>
    intro m a
    simp only [List.foldl_cons, List.map_cons, List.mem_cons]
    rw [ih]
    by_cases hr : a ∈ rest.map (base + ·)
    · simp [hr]
    · by_cases hi : a = base + i
      · simp [hr, hi, PMwrite]
      · simp [hr, hi, PMwrite]

/-- Folding zero-writes appends the corresponding write events. -/
theorem zeroFoldl_trace (base : Nat) :
    ∀ (l : List Nat) (m : Mem),
    ((l.foldl (fun m offset => PMwrite m (base + offset) 0) m).trace)
      = m.trace ++ l.map (fun offset => PMEvent.write (base + offset) 0) := by
  intro l
  induction l with
  | nil => intro m; simp
  | cons i rest ih =>
    intro m
    simp only [List.foldl_cons, List.map_cons]
    rw [ih]
    simp [PMwrite]

/-- `emptyFrame` zeroes every word of the frame. -/
theorem emptyFrame_ram (c : Cfg) (m : Mem) (base : Nat) (o : Nat) (h : o < PAGE_SIZE c) :
    (emptyFrame c m base).ram (base + o) = 0 := by
  unfold emptyFrame
  rw [zeroFoldl_ram]
  simp only [List.mem_map, List.mem_range]
  rw [if_pos ⟨o, h, rfl⟩]

/-- `emptyFrame` emits one zero-write event per word of the frame. -/
theorem emptyFrame_trace (c : Cfg) (m : Mem) (base : Nat) :
    (emptyFrame c m base).trace
      = m.trace ++ (List.range (PAGE_SIZE c)).map (fun o => PMEvent.write (base + o) 0) := by
  unfold emptyFrame
  exact zeroFoldl_trace base _ m

/-- `addFrame` restated through `selectorRun`: run the selector, then
branch on its outcome. -/
theorem addFrame_eq_selectorRun (c : Cfg) (pageNumber currFrameOffset : Nat) (level : Nat)
    (forbiddenFrame : Nat) (currentFrameIndex : Int) (addressToAddTo : Nat) (m : Mem) :
    addFrame c pageNumber currFrameOffset level forbiddenFrame currentFrameIndex addressToAddTo m
      = (let r := selectorRun c pageNumber currFrameOffset forbiddenFrame currentFrameIndex
           addressToAddTo m
         let st := r.1
         let m := r.2
         if st.maxFrameIndex = -1 then
           if level = TABLES_DEPTH c - 1 then
             (st.currentFrameIndex, forbiddenFrame, PMrestore c m st.zeroFrameIndex pageNumber)
           else
             (st.currentFrameIndex, st.zeroFrameIndex,
               emptyFrame c m (u64 (st.zeroFrameIndex * PAGE_SIZE c)))
         else if st.maxFrameIndex + 1 < (NUM_FRAMES c : Int) then
           let m := PMwrite m addressToAddTo (wordOfInt (st.maxFrameIndex + 1))
           if level = TABLES_DEPTH c - 1 then
             (wordOfInt (st.maxFrameIndex + 1), forbiddenFrame,
               PMrestore c m (u64ofInt (st.maxFrameIndex + 1)) pageNumber)
           else
             (wordOfInt (st.maxFrameIndex + 1), u64ofInt (st.maxFrameIndex + 1),
               emptyFrame c m (u64ofInt ((st.maxFrameIndex + 1) * (PAGE_SIZE c : Int))))
         else
           let m := PMevict c m st.frameToEvict st.pageToEvict
           let m := PMwrite m (u64 (st.parentOfPageToEvict * PAGE_SIZE c
             + getOffset c st.pageToEvict)) 0
           let m := PMwrite m addressToAddTo (wordOfNat st.frameToEvict)
           if level = TABLES_DEPTH c - 1 then
             (wordOfNat st.frameToEvict, forbiddenFrame,
               PMrestore c m st.frameToEvict pageNumber)
           else
             (wordOfNat st.frameToEvict, st.frameToEvict,
               emptyFrame c m (u64 (st.frameToEvict * PAGE_SIZE c)))) := rfl

/-- C3.  For every `addFrame` call, on any memory whatsoever: exactly one
of the three strategies runs, selected in priority order on the selector's
outcome — (A) `maxFrameIndex = -1` (an all-zero table frame was adopted):
the adopted frame (already installed by the selector) is the result;
(B) otherwise if `maxFrameIndex + 1 < NUM_FRAMES`: the fresh frame
`maxFrameIndex + 1` is written into the parent slot; (C) otherwise the
victim triple is evicted (evict, zero the victim's old parent slot,
install into the new parent slot).  In every case, when the faulting level
is the leaf level (`level = TABLES_DEPTH - 1`) the chosen frame is filled
by `restore(frame, pageNumber)` (the final backend event), and otherwise
its `PAGE_SIZE` words are zeroed. -/
theorem C3_allocatorStrategies (c : Cfg) (pageNumber currFrameOffset level forbiddenFrame : Nat)
    (currentFrameIndex : Int) (addressToAddTo : Nat) (m : Mem) (st : FindSt) (m1 : Mem)
    (hsel : selectorRun c pageNumber currFrameOffset forbiddenFrame currentFrameIndex
      addressToAddTo m = (st, m1))
    (cur : Int) (fb : Nat) (m2 : Mem)
    (hadd : addFrame c pageNumber currFrameOffset level forbiddenFrame currentFrameIndex
      addressToAddTo m = (cur, fb, m2)) :
    (st.maxFrameIndex = -1 →
      cur = st.currentFrameIndex ∧
      (level = TABLES_DEPTH c - 1 →
        fb = forbiddenFrame ∧
        m2.trace = m1.trace ++ [PMEvent.restore st.zeroFrameIndex pageNumber]) ∧
      (level ≠ TABLES_DEPTH c - 1 →
        fb = st.zeroFrameIndex ∧
        m2.trace = m1.trace ++ (List.range (PAGE_SIZE c)).map
          (fun o => PMEvent.write (u64 (st.zeroFrameIndex * PAGE_SIZE c) + o) 0) ∧
        ∀ o < PAGE_SIZE c, m2.ram (u64 (st.zeroFrameIndex * PAGE_SIZE c) + o) = 0)) ∧
    (st.maxFrameIndex ≠ -1 → st.maxFrameIndex + 1 < (NUM_FRAMES c : Int) →
      cur = wordOfInt (st.maxFrameIndex + 1) ∧
      (level = TABLES_DEPTH c - 1 →
        fb = forbiddenFrame ∧
        m2.trace = m1.trace
          ++ [PMEvent.write addressToAddTo (wordOfInt (st.maxFrameIndex + 1)),
              PMEvent.restore (u64ofInt (st.maxFrameIndex + 1)) pageNumber]) ∧
      (level ≠ TABLES_DEPTH c - 1 →
        fb = u64ofInt (st.maxFrameIndex + 1) ∧
        m2.trace = m1.trace
          ++ PMEvent.write addressToAddTo (wordOfInt (st.maxFrameIndex + 1))
            :: (List.range (PAGE_SIZE c)).map
              (fun o => PMEvent.write (u64ofInt ((st.maxFrameIndex + 1) * (PAGE_SIZE c : Int)) + o) 0) ∧
        ∀ o < PAGE_SIZE c,
          m2.ram (u64ofInt ((st.maxFrameIndex + 1) * (PAGE_SIZE c : Int)) + o) = 0)) ∧
    (st.maxFrameIndex ≠ -1 → ¬ st.maxFrameIndex + 1 < (NUM_FRAMES c : Int) →
      cur = wordOfNat st.frameToEvict ∧
      (level = TABLES_DEPTH c - 1 →
        fb = forbiddenFrame ∧
        m2.trace = m1.trace
          ++ [PMEvent.evict st.frameToEvict st.pageToEvict,
              PMEvent.write (u64 (st.parentOfPageToEvict * PAGE_SIZE c
                + getOffset c st.pageToEvict)) 0,
              PMEvent.write addressToAddTo (wordOfNat st.frameToEvict),
              PMEvent.restore st.frameToEvict pageNumber]) ∧
      (level ≠ TABLES_DEPTH c - 1 →
        fb = st.frameToEvict ∧
        m2.trace = m1.trace
          ++ PMEvent.evict st.frameToEvict st.pageToEvict
            :: PMEvent.write (u64 (st.parentOfPageToEvict * PAGE_SIZE c
                + getOffset c st.pageToEvict)) 0
            :: PMEvent.write addressToAddTo (wordOfNat st.frameToEvict)
            :: (List.range (PAGE_SIZE c)).map
              (fun o => PMEvent.write (u64 (st.frameToEvict * PAGE_SIZE c) + o) 0) ∧
        ∀ o < PAGE_SIZE c, m2.ram (u64 (st.frameToEvict * PAGE_SIZE c) + o) = 0)) := by
  rw [addFrame_eq_selectorRun, hsel] at hadd
  simp only at hadd
  refine ⟨?_, ?_, ?_⟩
  · intro hA
    rw [if_pos hA] at hadd
    by_cases hL : level = TABLES_DEPTH c - 1
    · rw [if_pos hL] at hadd
      injection hadd with h1 h23
      injection h23 with h2 h3
      subst h1 h2 h3
      refine ⟨rfl, fun _ => ⟨rfl, by simp [PMrestore]⟩, fun hc => absurd hL hc⟩
    · rw [if_neg hL] at hadd
      injection hadd with h1 h23
      injection h23 with h2 h3
      subst h1 h2 h3
      refine ⟨rfl, fun hc => absurd hc hL, fun _ => ⟨rfl, emptyFrame_trace c m1 _, ?_⟩⟩
      intro o ho
      exact emptyFrame_ram c m1 _ o ho
  · intro hA hB
    rw [if_neg hA, if_pos hB] at hadd
    by_cases hL : level = TABLES_DEPTH c - 1
    · rw [if_pos hL] at hadd
      injection hadd with h1 h23
      injection h23 with h2 h3
      subst h1 h2 h3
      refine ⟨rfl, fun _ => ⟨rfl, by simp [PMrestore, PMwrite]⟩, fun hc => absurd hL hc⟩
    · rw [if_neg hL] at hadd
      injection hadd with h1 h23
      injection h23 with h2 h3
      subst h1 h2 h3
      refine ⟨rfl, fun hc => absurd hc hL, fun _ => ⟨rfl, ?_, ?_⟩⟩
      · rw [emptyFrame_trace]
        simp [PMwrite]
      · intro o ho
        exact emptyFrame_ram c _ _ o ho
  · intro hA hB
    rw [if_neg hA, if_neg hB] at hadd
    by_cases hL : level = TABLES_DEPTH c - 1
    · rw [if_pos hL] at hadd
      injection hadd with h1 h23
      injection h23 with h2 h3
      subst h1 h2 h3
      refine ⟨rfl, fun _ => ⟨rfl, by simp [PMrestore, PMwrite, PMevict]⟩,
        fun hc => absurd hL hc⟩
    · rw [if_neg hL] at hadd
      injection hadd with h1 h23
      injection h23 with h2 h3
      subst h1 h2 h3
      refine ⟨rfl, fun hc => absurd hc hL, fun _ => ⟨rfl, ?_, ?_⟩⟩
      · rw [emptyFrame_trace]
        simp [PMwrite, PMevict]
      · intro o ho
        exact emptyFrame_ram c _ _ o ho

/-- Witness for C3 at a concrete input: the level-0 allocation of scenario
S1 takes the fresh-frame strategy (B) at an internal level and zeroes the
words of frame 1. -/
theorem C3_allocatorStrategies_witness :
    (selectorResult c153 6 0 0 0 0 s1StepA).maxFrameIndex ≠ -1 ∧
    (selectorResult c153 6 0 0 0 0 s1StepA).maxFrameIndex + 1 < (NUM_FRAMES c153 : Int) ∧
    (addFrame c153 6 0 0 0 0 0 s1StepA).1
      = wordOfInt ((selectorResult c153 6 0 0 0 0 s1StepA).maxFrameIndex + 1) ∧
    (∀ o < PAGE_SIZE c153,
      (addFrame c153 6 0 0 0 0 0 s1StepA).2.2.ram
        (u64ofInt (((selectorResult c153 6 0 0 0 0 s1StepA).maxFrameIndex + 1)
          * (PAGE_SIZE c153 : Int)) + o) = 0) :=
  ⟨by decide, by decide,
   ((C3_allocatorStrategies c153 6 0 0 0 0 0 s1StepA
       (selectorRun c153 6 0 0 0 0 s1StepA).1 (selectorRun c153 6 0 0 0 0 s1StepA).2 rfl
       (addFrame c153 6 0 0 0 0 0 s1StepA).1 (addFrame c153 6 0 0 0 0 0 s1StepA).2.1
       (addFrame c153 6 0 0 0 0 0 s1StepA).2.2 rfl).2.1
     (by decide) (by decide)).1,
   (((C3_allocatorStrategies c153 6 0 0 0 0 0 s1StepA
       (selectorRun c153 6 0 0 0 0 s1StepA).1 (selectorRun c153 6 0 0 0 0 s1StepA).2 rfl
       (addFrame c153 6 0 0 0 0 0 s1StepA).1 (addFrame c153 6 0 0 0 0 0 s1StepA).2.1
       (addFrame c153 6 0 0 0 0 0 s1StepA).2.2 rfl).2.1
     (by decide) (by decide)).2.2 (by decide)).2.2⟩


theorem victimFold_append (c : Cfg) (pageNumber : Nat) (acc : VictimAcc)
    (l1 l2 : List (Nat × Nat × Nat)) :
    victimFold c pageNumber acc (l1 ++ l2)
      = victimFold c pageNumber (victimFold c pageNumber acc l1) l2 := by
  simp [victimFold, List.foldl_append]

theorem scanEntryUpdate_victimOf (c : Cfg) (pageNumber level : Nat) (frameIndex : Int)
    (pathToPage i : Nat) (value : Int) (st : FindSt) :
    victimOf (scanEntryUpdate c pageNumber level frameIndex pathToPage i value st)
      = if level = TABLES_DEPTH c - 1
        then victimStep c pageNumber (victimOf st)
          (concatenatePath c pathToPage i, u64ofInt frameIndex, u64ofInt value)
        else victimOf st := by
  unfold scanEntryUpdate victimStep leafDistance victimOf
  by_cases h1 : value > st.maxFrameIndex ∧ value < (NUM_FRAMES c : Int) <;>
    by_cases h2 : level = TABLES_DEPTH c - 1 <;>
      simp only [h1, h2, if_true, if_false, ite_true, ite_false] <;>
        by_cases h3 : toInt32 (findCyclicDistance c pageNumber (concatenatePath c pathToPage i))
            > st.maxCyclicalDistance <;>
          simp [h3]

/-- `scanEntryUpdate` leaves `zeroFrameIndex` unchanged. -/
theorem scanEntryUpdate_zeroFrameIndex (c : Cfg) (pageNumber level : Nat) (frameIndex : Int)
    (pathToPage i : Nat) (value : Int) (st : FindSt) :
    (scanEntryUpdate c pageNumber level frameIndex pathToPage i value st).zeroFrameIndex
      = st.zeroFrameIndex := by
  simp only [scanEntryUpdate]
  split_ifs <;> rfl

/-- `scanEntryUpdate` leaves `currentFrameIndex` unchanged. -/
theorem scanEntryUpdate_currentFrameIndex (c : Cfg) (pageNumber level : Nat) (frameIndex : Int)
    (pathToPage i : Nat) (value : Int) (st : FindSt) :
    (scanEntryUpdate c pageNumber level frameIndex pathToPage i value st).currentFrameIndex
      = st.currentFrameIndex := by
  simp only [scanEntryUpdate]
  split_ifs <;> rfl

/-- `scanEntryUpdate` keeps the running maximum non-negative. -/
theorem scanEntryUpdate_max_nonneg (c : Cfg) (pageNumber level : Nat) (frameIndex : Int)
    (pathToPage i : Nat) (value : Int) (st : FindSt) (h0 : 0 ≤ st.maxFrameIndex) :
    0 ≤ (scanEntryUpdate c pageNumber level frameIndex pathToPage i value st).maxFrameIndex := by
  simp only [scanEntryUpdate]
  split_ifs <;> (try simp) <;> omega

/-- Folding over no leaves changes nothing. -/
theorem victimFold_nil (c : Cfg) (pageNumber : Nat) (acc : VictimAcc) :
    victimFold c pageNumber acc [] = acc := List.foldl_nil

/-- Folding over a single leaf is one update step. -/
theorem victimFold_single (c : Cfg) (pageNumber : Nat) (acc : VictimAcc)
    (leaf : Nat × Nat × Nat) :
    victimFold c pageNumber acc [leaf] = victimStep c pageNumber acc leaf := by
  unfold victimFold
  rw [List.foldl_cons, List.foldl_nil]

/-- Unfolding `scanLeaves` over a zero entry: nothing is recorded. -/
theorem scanLeaves_cons_zero (c : Cfg) (level : Nat) (frameIndex : Int) (pathToPage : Nat)
    (childLeaves : Int → Nat → (Nat → Int) → List (Nat × Nat × Nat)) (ram : Nat → Int)
    (i : Nat) (rest : List Nat)
    (h : ram (u64ofInt (frameIndex * (PAGE_SIZE c : Int) + (i : Int))) = 0) :
    scanLeaves c level frameIndex pathToPage childLeaves ram (i :: rest)
      = scanLeaves c level frameIndex pathToPage childLeaves ram rest := by
  simp only [scanLeaves]
  rw [if_pos h, List.nil_append]

/-- Unfolding `scanLeaves` over a non-zero entry: the leaf entry (at the
last table level) followed by the child's leaves, then the rest. -/
theorem scanLeaves_cons_nonzero (c : Cfg) (level : Nat) (frameIndex : Int) (pathToPage : Nat)
    (childLeaves : Int → Nat → (Nat → Int) → List (Nat × Nat × Nat)) (ram : Nat → Int)
    (i : Nat) (rest : List Nat)
    (h : ¬ ram (u64ofInt (frameIndex * (PAGE_SIZE c : Int) + (i : Int))) = 0) :
    scanLeaves c level frameIndex pathToPage childLeaves ram (i :: rest)
      = ((if level = TABLES_DEPTH c - 1
          then [(concatenatePath c pathToPage i, u64ofInt frameIndex,
                 u64ofInt (ram (u64ofInt (frameIndex * (PAGE_SIZE c : Int) + (i : Int)))))]
          else [])
         ++ childLeaves (ram (u64ofInt (frameIndex * (PAGE_SIZE c : Int) + (i : Int))))
              (concatenatePath c pathToPage i) ram)
        ++ scanLeaves c level frameIndex pathToPage childLeaves ram rest := by
  simp only [scanLeaves]
  rw [if_neg h]

/-- Unfolding one loop step of `findFrameScan` on a zero entry: record the
read and continue with the remaining slots. -/
theorem findFrameScan_cons_zero (c : Cfg) (pageNumber level : Nat) (frameIndex : Int)
    (pathToPage : Nat) (child : Int → Int → Nat → FindSt → Mem → FindSt × Mem)
    (i : Nat) (rest : List Nat) (st : FindSt) (m : Mem) (az : Bool)
    (h : m.ram (u64ofInt (frameIndex * (PAGE_SIZE c : Int) + (i : Int))) = 0) :
    findFrameScan c pageNumber level frameIndex pathToPage child (i :: rest) st m az
      = findFrameScan c pageNumber level frameIndex pathToPage child rest st
          { m with trace := m.trace
            ++ [PMEvent.read (u64ofInt (frameIndex * (PAGE_SIZE c : Int) + (i : Int)))] } az := by
  simp only [findFrameScan, PMread]
  rw [if_neg (not_not_intro h)]

/-- Unfolding one loop step of `findFrameScan` on a non-zero entry whose
recursive call discovered a zero frame: the early return. -/
theorem findFrameScan_cons_adopt (c : Cfg) (pageNumber level : Nat) (frameIndex : Int)
    (pathToPage : Nat) (child : Int → Int → Nat → FindSt → Mem → FindSt × Mem)
    (i : Nat) (rest : List Nat) (st : FindSt) (m : Mem) (az : Bool)
    (h : ¬ m.ram (u64ofInt (frameIndex * (PAGE_SIZE c : Int) + (i : Int))) = 0)
    (h2 : (child (frameIndex * (PAGE_SIZE c : Int) + (i : Int))
        (m.ram (u64ofInt (frameIndex * (PAGE_SIZE c : Int) + (i : Int))))
        (concatenatePath c pathToPage i)
        (scanEntryUpdate c pageNumber level frameIndex pathToPage i
          (m.ram (u64ofInt (frameIndex * (PAGE_SIZE c : Int) + (i : Int)))) st)
        { m with trace := m.trace
          ++ [PMEvent.read (u64ofInt (frameIndex * (PAGE_SIZE c : Int) + (i : Int)))] }).1.maxFrameIndex
        = -1) :
    findFrameScan c pageNumber level frameIndex pathToPage child (i :: rest) st m az
      = (true, false,
          child (frameIndex * (PAGE_SIZE c : Int) + (i : Int))
            (m.ram (u64ofInt (frameIndex * (PAGE_SIZE c : Int) + (i : Int))))
            (concatenatePath c pathToPage i)
            (scanEntryUpdate c pageNumber level frameIndex pathToPage i
              (m.ram (u64ofInt (frameIndex * (PAGE_SIZE c : Int) + (i : Int)))) st)
            { m with trace := m.trace
              ++ [PMEvent.read (u64ofInt (frameIndex * (PAGE_SIZE c : Int) + (i : Int)))] }) := by
  simp only [findFrameScan, PMread]
  rw [if_pos h, if_pos h2]

/-- Unfolding one loop step of `findFrameScan` on a non-zero entry whose
recursive call found no zero frame: continue with the remaining slots from
the state and memory the call produced. -/
theorem findFrameScan_cons_continue (c : Cfg) (pageNumber level : Nat) (frameIndex : Int)
    (pathToPage : Nat) (child : Int → Int → Nat → FindSt → Mem → FindSt × Mem)
    (i : Nat) (rest : List Nat) (st : FindSt) (m : Mem) (az : Bool)
    (h : ¬ m.ram (u64ofInt (frameIndex * (PAGE_SIZE c : Int) + (i : Int))) = 0)
    (h2 : ¬ (child (frameIndex * (PAGE_SIZE c : Int) + (i : Int))
        (m.ram (u64ofInt (frameIndex * (PAGE_SIZE c : Int) + (i : Int))))
        (concatenatePath c pathToPage i)
        (scanEntryUpdate c pageNumber level frameIndex pathToPage i
          (m.ram (u64ofInt (frameIndex * (PAGE_SIZE c : Int) + (i : Int)))) st)
        { m with trace := m.trace
          ++ [PMEvent.read (u64ofInt (frameIndex * (PAGE_SIZE c : Int) + (i : Int)))] }).1.maxFrameIndex
        = -1) :
    findFrameScan c pageNumber level frameIndex pathToPage child (i :: rest) st m az
      = findFrameScan c pageNumber level frameIndex pathToPage child rest
          (child (frameIndex * (PAGE_SIZE c : Int) + (i : Int))
            (m.ram (u64ofInt (frameIndex * (PAGE_SIZE c : Int) + (i : Int))))
            (concatenatePath c pathToPage i)
            (scanEntryUpdate c pageNumber level frameIndex pathToPage i
              (m.ram (u64ofInt (frameIndex * (PAGE_SIZE c : Int) + (i : Int)))) st)
            { m with trace := m.trace
              ++ [PMEvent.read (u64ofInt (frameIndex * (PAGE_SIZE c : Int) + (i : Int)))] }).1
          ((child (frameIndex * (PAGE_SIZE c : Int) + (i : Int))
            (m.ram (u64ofInt (frameIndex * (PAGE_SIZE c : Int) + (i : Int))))
            (concatenatePath c pathToPage i)
            (scanEntryUpdate c pageNumber level frameIndex pathToPage i
              (m.ram (u64ofInt (frameIndex * (PAGE_SIZE c : Int) + (i : Int)))) st)
            { m with trace := m.trace
              ++ [PMEvent.read (u64ofInt (frameIndex * (PAGE_SIZE c : Int) + (i : Int)))] }).2)
          false := by
  simp only [findFrameScan, PMread]
  rw [if_pos h, if_neg h2]

/-- A completed scan that did not discover an adoptable all-zero frame
(final `maxFrameIndex ≠ -1`) performs no early return, leaves RAM, the
backing store, `zeroFrameIndex` and `currentFrameIndex` untouched, and
updates the eviction candidate exactly by folding the strict-improvement
update over the leaf entries it visits, in visiting order. -/
theorem findFrameScan_noAdoption (c : Cfg) (pageNumber level : Nat) (frameIndex : Int)
    (pathToPage : Nat)
    (child : Int → Int → Nat → FindSt → Mem → FindSt × Mem)
    (childLeaves : Int → Nat → (Nat → Int) → List (Nat × Nat × Nat))
    (hchild : ∀ pa v path st m, 0 ≤ st.maxFrameIndex →
      (child pa v path st m).1.maxFrameIndex ≠ -1 →
      victimOf (child pa v path st m).1
          = victimFold c pageNumber (victimOf st) (childLeaves v path m.ram) ∧
      (child pa v path st m).2.ram = m.ram ∧
      (child pa v path st m).2.swap = m.swap ∧
      (child pa v path st m).1.zeroFrameIndex = st.zeroFrameIndex ∧
      (child pa v path st m).1.currentFrameIndex = st.currentFrameIndex ∧
      0 ≤ (child pa v path st m).1.maxFrameIndex) :
    ∀ (slots : List Nat) (st : FindSt) (m : Mem) (az : Bool),
      0 ≤ st.maxFrameIndex →
      (findFrameScan c pageNumber level frameIndex pathToPage child slots st m az).2.2.1.maxFrameIndex ≠ -1 →
      (findFrameScan c pageNumber level frameIndex pathToPage child slots st m az).1 = false ∧
      victimOf (findFrameScan c pageNumber level frameIndex pathToPage child slots st m az).2.2.1
        = victimFold c pageNumber (victimOf st)
            (scanLeaves c level frameIndex pathToPage childLeaves m.ram slots) ∧
      (findFrameScan c pageNumber level frameIndex pathToPage child slots st m az).2.2.2.ram = m.ram ∧
      (findFrameScan c pageNumber level frameIndex pathToPage child slots st m az).2.2.2.swap = m.swap ∧
      (findFrameScan c pageNumber level frameIndex pathToPage child slots st m az).2.2.1.zeroFrameIndex = st.zeroFrameIndex ∧
      (findFrameScan c pageNumber level frameIndex pathToPage child slots st m az).2.2.1.currentFrameIndex = st.currentFrameIndex ∧
      0 ≤ (findFrameScan c pageNumber level frameIndex pathToPage child slots st m az).2.2.1.maxFrameIndex := by
  intro slots
  induction slots with
  | nil =>
    intro st m az h0 hne
    exact ⟨rfl, rfl, rfl, rfl, rfl, rfl, h0⟩
  | cons i rest ih =>
    intro st m az h0 hne
    have hmr : ({ m with trace := m.trace
        ++ [PMEvent.read (u64ofInt (frameIndex * (PAGE_SIZE c : Int) + (i : Int)))] } : Mem).ram
        = m.ram := rfl
    have hms : ({ m with trace := m.trace
        ++ [PMEvent.read (u64ofInt (frameIndex * (PAGE_SIZE c : Int) + (i : Int)))] } : Mem).swap
        = m.swap := rfl
    by_cases hv : m.ram (u64ofInt (frameIndex * (PAGE_SIZE c : Int) + (i : Int))) = 0
    · rw [findFrameScan_cons_zero c pageNumber level frameIndex pathToPage child
        i rest st m az hv] at hne ⊢
      obtain ⟨ih1, ih2, ih3, ih4, ih5, ih6, ih7⟩ := ih st _ az h0 hne
      rw [hmr] at ih2 ih3
      rw [hms] at ih4
      refine ⟨ih1, ?_, ih3, ih4, ih5, ih6, ih7⟩
      rw [ih2, scanLeaves_cons_zero c level frameIndex pathToPage childLeaves m.ram i rest hv]
    · have hU0 : 0 ≤ (scanEntryUpdate c pageNumber level frameIndex pathToPage i
          (m.ram (u64ofInt (frameIndex * (PAGE_SIZE c : Int) + (i : Int)))) st).maxFrameIndex :=
        scanEntryUpdate_max_nonneg c pageNumber level frameIndex pathToPage i _ st h0
      by_cases hr2 : (child (frameIndex * (PAGE_SIZE c : Int) + (i : Int))
          (m.ram (u64ofInt (frameIndex * (PAGE_SIZE c : Int) + (i : Int))))
          (concatenatePath c pathToPage i)
          (scanEntryUpdate c pageNumber level frameIndex pathToPage i
            (m.ram (u64ofInt (frameIndex * (PAGE_SIZE c : Int) + (i : Int)))) st)
          { m with trace := m.trace
            ++ [PMEvent.read (u64ofInt (frameIndex * (PAGE_SIZE c : Int) + (i : Int)))] }).1.maxFrameIndex = -1
      · rw [findFrameScan_cons_adopt c pageNumber level frameIndex pathToPage child
          i rest st m az hv hr2] at hne
        exact absurd hr2 hne
      · rw [findFrameScan_cons_continue c pageNumber level frameIndex pathToPage child
          i rest st m az hv hr2] at hne ⊢
        have hch := hchild (frameIndex * (PAGE_SIZE c : Int) + (i : Int))
          (m.ram (u64ofInt (frameIndex * (PAGE_SIZE c : Int) + (i : Int))))
          (concatenatePath c pathToPage i)
          (scanEntryUpdate c pageNumber level frameIndex pathToPage i
            (m.ram (u64ofInt (frameIndex * (PAGE_SIZE c : Int) + (i : Int)))) st)
          { m with trace := m.trace
            ++ [PMEvent.read (u64ofInt (frameIndex * (PAGE_SIZE c : Int) + (i : Int)))] }
          hU0 hr2
        obtain ⟨hcv, hcr, hcs, hcz, hcc, hc0⟩ := hch
        rw [hmr] at hcv hcr
        rw [hms] at hcs
        obtain ⟨ih1, ih2, ih3, ih4, ih5, ih6, ih7⟩ := ih (child (frameIndex * (PAGE_SIZE c : Int) + (i : Int))
          (m.ram (u64ofInt (frameIndex * (PAGE_SIZE c : Int) + (i : Int))))
          (concatenatePath c pathToPage i)
          (scanEntryUpdate c pageNumber level frameIndex pathToPage i
            (m.ram (u64ofInt (frameIndex * (PAGE_SIZE c : Int) + (i : Int)))) st)
          { m with trace := m.trace
            ++ [PMEvent.read (u64ofInt (frameIndex * (PAGE_SIZE c : Int) + (i : Int)))] }).1 (child (frameIndex * (PAGE_SIZE c : Int) + (i : Int))
          (m.ram (u64ofInt (frameIndex * (PAGE_SIZE c : Int) + (i : Int))))
          (concatenatePath c pathToPage i)
          (scanEntryUpdate c pageNumber level frameIndex pathToPage i
            (m.ram (u64ofInt (frameIndex * (PAGE_SIZE c : Int) + (i : Int)))) st)
          { m with trace := m.trace
            ++ [PMEvent.read (u64ofInt (frameIndex * (PAGE_SIZE c : Int) + (i : Int)))] }).2 false hc0 hne
        rw [hcr] at ih2 ih3
        rw [hcs] at ih4
        refine ⟨ih1, ?_, ih3, ih4, ?_, ?_, ih7⟩
        · rw [ih2, hcv,
            scanLeaves_cons_nonzero c level frameIndex pathToPage childLeaves m.ram i rest hv,
            victimFold_append, victimFold_append,
            scanEntryUpdate_victimOf c pageNumber level frameIndex pathToPage i
              (m.ram (u64ofInt (frameIndex * (PAGE_SIZE c : Int) + (i : Int)))) st]
          by_cases hL : level = TABLES_DEPTH c - 1
          · rw [if_pos hL, if_pos hL, victimFold_single]
          · rw [if_neg hL, if_neg hL, victimFold_nil]
        · rw [ih5, hcz,
            scanEntryUpdate_zeroFrameIndex c pageNumber level frameIndex pathToPage i
              (m.ram (u64ofInt (frameIndex * (PAGE_SIZE c : Int) + (i : Int)))) st]
        · rw [ih6, hcc,
            scanEntryUpdate_currentFrameIndex c pageNumber level frameIndex pathToPage i
              (m.ram (u64ofInt (frameIndex * (PAGE_SIZE c : Int) + (i : Int)))) st]

/-- `findFrame` with no fuel returns its state unchanged (callers keep
`fuel = TABLES_DEPTH - level`, so this coincides with `level <
TABLES_DEPTH` failing). -/
theorem findFrame_fuel_zero (c : Cfg) (pageNumber : Nat) (parentAddress : Int) (level : Nat)
    (currFrameOffset : Nat) (frameIndex : Int) (pathToPage forbiddenFrame addressToAdd : Nat)
    (st : FindSt) (m : Mem) :
    findFrame c pageNumber 0 parentAddress level currFrameOffset frameIndex pathToPage
      forbiddenFrame addressToAdd st m = (st, m) := rfl

/-- `findFrame` below the table levels returns its state unchanged. -/
theorem findFrame_stop (c : Cfg) (pageNumber : Nat) (fuel : Nat) (parentAddress : Int)
    (level : Nat) (currFrameOffset : Nat) (frameIndex : Int)
    (pathToPage forbiddenFrame addressToAdd : Nat) (st : FindSt) (m : Mem)
    (h : ¬ level < TABLES_DEPTH c) :
    findFrame c pageNumber (fuel + 1) parentAddress level currFrameOffset frameIndex pathToPage
      forbiddenFrame addressToAdd st m = (st, m) := by
  simp only [findFrame]
  rw [if_neg h]

/-- `findFrame` on a table level whose scan hit the early return passes the
scan's outcome through. -/
theorem findFrame_early (c : Cfg) (pageNumber : Nat) (fuel : Nat) (parentAddress : Int)
    (level : Nat) (currFrameOffset : Nat) (frameIndex : Int)
    (pathToPage forbiddenFrame addressToAdd : Nat) (st : FindSt) (m : Mem)
    (h : level < TABLES_DEPTH c)
    (he : (findFrameScan c pageNumber level frameIndex pathToPage
        (fun pa v path st m =>
          findFrame c pageNumber fuel pa (level + 1) currFrameOffset v path
            forbiddenFrame addressToAdd st m)
        (List.range (PAGE_SIZE c)) st m true).1 = true) :
    findFrame c pageNumber (fuel + 1) parentAddress level currFrameOffset frameIndex pathToPage
      forbiddenFrame addressToAdd st m
      = ((findFrameScan c pageNumber level frameIndex pathToPage
        (fun pa v path st m =>
          findFrame c pageNumber fuel pa (level + 1) currFrameOffset v path
            forbiddenFrame addressToAdd st m)
        (List.range (PAGE_SIZE c)) st m true).2.2.1, (findFrameScan c pageNumber level frameIndex pathToPage
        (fun pa v path st m =>
          findFrame c pageNumber fuel pa (level + 1) currFrameOffset v path
            forbiddenFrame addressToAdd st m)
        (List.range (PAGE_SIZE c)) st m true).2.2.2) := by
  simp only [findFrame]
  rw [if_pos h, if_pos he]

/-- `findFrame` on a table level that adopts the scanned frame as the
reusable zero frame records `-1` in the running maximum. -/
theorem findFrame_adopt_max (c : Cfg) (pageNumber : Nat) (fuel : Nat) (parentAddress : Int)
    (level : Nat) (currFrameOffset : Nat) (frameIndex : Int)
    (pathToPage forbiddenFrame addressToAdd : Nat) (st : FindSt) (m : Mem)
    (h : level < TABLES_DEPTH c)
    (he : ¬ (findFrameScan c pageNumber level frameIndex pathToPage
        (fun pa v path st m =>
          findFrame c pageNumber fuel pa (level + 1) currFrameOffset v path
            forbiddenFrame addressToAdd st m)
        (List.range (PAGE_SIZE c)) st m true).1 = true)
    (ha : (findFrameScan c pageNumber level frameIndex pathToPage
        (fun pa v path st m =>
          findFrame c pageNumber fuel pa (level + 1) currFrameOffset v path
            forbiddenFrame addressToAdd st m)
        (List.range (PAGE_SIZE c)) st m true).2.1
        ∧ (findFrameScan c pageNumber level frameIndex pathToPage
        (fun pa v path st m =>
          findFrame c pageNumber fuel pa (level + 1) currFrameOffset v path
            forbiddenFrame addressToAdd st m)
        (List.range (PAGE_SIZE c)) st m true).2.2.1.maxFrameIndex ≠ -1
        ∧ u64ofInt frameIndex ≠ forbiddenFrame) :
    (findFrame c pageNumber (fuel + 1) parentAddress level currFrameOffset frameIndex pathToPage
      forbiddenFrame addressToAdd st m).1.maxFrameIndex = -1 := by
  simp only [findFrame]
  rw [if_pos h, if_neg he, if_pos ha]

/-- `findFrame` on a table level with neither early return nor adoption
passes the scan's outcome through. -/
theorem findFrame_plain (c : Cfg) (pageNumber : Nat) (fuel : Nat) (parentAddress : Int)
    (level : Nat) (currFrameOffset : Nat) (frameIndex : Int)
    (pathToPage forbiddenFrame addressToAdd : Nat) (st : FindSt) (m : Mem)
    (h : level < TABLES_DEPTH c)
    (he : ¬ (findFrameScan c pageNumber level frameIndex pathToPage
        (fun pa v path st m =>
          findFrame c pageNumber fuel pa (level + 1) currFrameOffset v path
            forbiddenFrame addressToAdd st m)
        (List.range (PAGE_SIZE c)) st m true).1 = true)
    (ha : ¬ ((findFrameScan c pageNumber level frameIndex pathToPage
        (fun pa v path st m =>
          findFrame c pageNumber fuel pa (level + 1) currFrameOffset v path
            forbiddenFrame addressToAdd st m)
        (List.range (PAGE_SIZE c)) st m true).2.1
        ∧ (findFrameScan c pageNumber level frameIndex pathToPage
        (fun pa v path st m =>
          findFrame c pageNumber fuel pa (level + 1) currFrameOffset v path
            forbiddenFrame addressToAdd st m)
        (List.range (PAGE_SIZE c)) st m true).2.2.1.maxFrameIndex ≠ -1
        ∧ u64ofInt frameIndex ≠ forbiddenFrame)) :
    findFrame c pageNumber (fuel + 1) parentAddress level currFrameOffset frameIndex pathToPage
      forbiddenFrame addressToAdd st m
      = ((findFrameScan c pageNumber level frameIndex pathToPage
        (fun pa v path st m =>
          findFrame c pageNumber fuel pa (level + 1) currFrameOffset v path
            forbiddenFrame addressToAdd st m)
        (List.range (PAGE_SIZE c)) st m true).2.2.1, (findFrameScan c pageNumber level frameIndex pathToPage
        (fun pa v path st m =>
          findFrame c pageNumber fuel pa (level + 1) currFrameOffset v path
            forbiddenFrame addressToAdd st m)
        (List.range (PAGE_SIZE c)) st m true).2.2.2) := by
  simp only [findFrame]
  rw [if_pos h, if_neg he, if_neg ha]

/-- `dfsLeaves` with no fuel is empty. -/
theorem dfsLeaves_fuel_zero (c : Cfg) (level : Nat) (frameIndex : Int) (pathToPage : Nat)
    (ram : Nat → Int) :
    dfsLeaves c 0 level frameIndex pathToPage ram = [] := rfl

/-- `dfsLeaves` below the table levels is empty. -/
theorem dfsLeaves_stop (c : Cfg) (fuel level : Nat) (frameIndex : Int) (pathToPage : Nat)
    (ram : Nat → Int) (h : ¬ level < TABLES_DEPTH c) :
    dfsLeaves c (fuel + 1) level frameIndex pathToPage ram = [] := by
  simp only [dfsLeaves]
  rw [if_neg h]

/-- `dfsLeaves` on a table level is the scan of all slots with the
recursion one level deeper. -/
theorem dfsLeaves_lt (c : Cfg) (fuel level : Nat) (frameIndex : Int) (pathToPage : Nat)
    (ram : Nat → Int) (h : level < TABLES_DEPTH c) :
    dfsLeaves c (fuel + 1) level frameIndex pathToPage ram
      = scanLeaves c level frameIndex pathToPage
          (fun v p ram => dfsLeaves c fuel (level + 1) v p ram) ram
          (List.range (PAGE_SIZE c)) := by
  simp only [dfsLeaves]
  rw [if_pos h]

/-- A `findFrame` call that ends without discovering an adoptable all-zero
frame (final `maxFrameIndex ≠ -1`) leaves RAM, the backing store,
`zeroFrameIndex` and `currentFrameIndex` untouched, keeps the running
maximum non-negative and updates the eviction candidate exactly by folding
the strict-improvement update over the DFS leaf list of the subtree. -/
theorem findFrame_noAdoption (c : Cfg) (pageNumber : Nat) :
    ∀ (fuel : Nat) (parentAddress : Int) (level : Nat) (currFrameOffset : Nat)
      (frameIndex : Int) (pathToPage forbiddenFrame addressToAdd : Nat)
      (st : FindSt) (m : Mem),
      0 ≤ st.maxFrameIndex →
      (findFrame c pageNumber fuel parentAddress level currFrameOffset frameIndex pathToPage
        forbiddenFrame addressToAdd st m).1.maxFrameIndex ≠ -1 →
      victimOf (findFrame c pageNumber fuel parentAddress level currFrameOffset frameIndex
          pathToPage forbiddenFrame addressToAdd st m).1
        = victimFold c pageNumber (victimOf st)
            (dfsLeaves c fuel level frameIndex pathToPage m.ram) ∧
      (findFrame c pageNumber fuel parentAddress level currFrameOffset frameIndex pathToPage
        forbiddenFrame addressToAdd st m).2.ram = m.ram ∧
      (findFrame c pageNumber fuel parentAddress level currFrameOffset frameIndex pathToPage
        forbiddenFrame addressToAdd st m).2.swap = m.swap ∧
      (findFrame c pageNumber fuel parentAddress level currFrameOffset frameIndex pathToPage
        forbiddenFrame addressToAdd st m).1.zeroFrameIndex = st.zeroFrameIndex ∧
      (findFrame c pageNumber fuel parentAddress level currFrameOffset frameIndex pathToPage
        forbiddenFrame addressToAdd st m).1.currentFrameIndex = st.currentFrameIndex ∧
      0 ≤ (findFrame c pageNumber fuel parentAddress level currFrameOffset frameIndex pathToPage
        forbiddenFrame addressToAdd st m).1.maxFrameIndex := by
  intro fuel
  induction fuel with
  | zero =>
    intro parentAddress level currFrameOffset frameIndex pathToPage forbiddenFrame addressToAdd
      st m h0 hne
    rw [findFrame_fuel_zero] at hne ⊢
    rw [dfsLeaves_fuel_zero, victimFold_nil]
    exact ⟨rfl, rfl, rfl, rfl, rfl, h0⟩
  | succ fuel IH =>
    intro parentAddress level currFrameOffset frameIndex pathToPage forbiddenFrame addressToAdd
      st m h0 hne
    by_cases hlt : level < TABLES_DEPTH c
    · have hscan := findFrameScan_noAdoption c pageNumber level frameIndex pathToPage
        (fun pa v path st m =>
          findFrame c pageNumber fuel pa (level + 1) currFrameOffset v path
            forbiddenFrame addressToAdd st m)
        (fun v p ram => dfsLeaves c fuel (level + 1) v p ram)
        (fun pa v path st m hst hnm =>
          IH pa (level + 1) currFrameOffset v path forbiddenFrame addressToAdd st m hst hnm)
        (List.range (PAGE_SIZE c)) st m true h0
      by_cases he : (findFrameScan c pageNumber level frameIndex pathToPage
        (fun pa v path st m =>
          findFrame c pageNumber fuel pa (level + 1) currFrameOffset v path
            forbiddenFrame addressToAdd st m)
        (List.range (PAGE_SIZE c)) st m true).1 = true
      · rw [findFrame_early c pageNumber fuel parentAddress level currFrameOffset frameIndex
          pathToPage forbiddenFrame addressToAdd st m hlt he] at hne
        have hfalse := (hscan hne).1
        rw [hfalse] at he
        exact absurd he (by decide)
      · by_cases ha : (findFrameScan c pageNumber level frameIndex pathToPage
        (fun pa v path st m =>
          findFrame c pageNumber fuel pa (level + 1) currFrameOffset v path
            forbiddenFrame addressToAdd st m)
        (List.range (PAGE_SIZE c)) st m true).2.1
            ∧ (findFrameScan c pageNumber level frameIndex pathToPage
        (fun pa v path st m =>
          findFrame c pageNumber fuel pa (level + 1) currFrameOffset v path
            forbiddenFrame addressToAdd st m)
        (List.range (PAGE_SIZE c)) st m true).2.2.1.maxFrameIndex ≠ -1
            ∧ u64ofInt frameIndex ≠ forbiddenFrame
        · exact absurd (findFrame_adopt_max c pageNumber fuel parentAddress level currFrameOffset
            frameIndex pathToPage forbiddenFrame addressToAdd st m hlt he ha) hne
        · rw [findFrame_plain c pageNumber fuel parentAddress level currFrameOffset frameIndex
            pathToPage forbiddenFrame addressToAdd st m hlt he ha] at hne ⊢
          obtain ⟨s1, s2, s3, s4, s5, s6, s7⟩ := hscan hne
          refine ⟨?_, s3, s4, s5, s6, s7⟩
          rw [s2, dfsLeaves_lt c fuel level frameIndex pathToPage m.ram hlt]
    · rw [findFrame_stop c pageNumber fuel parentAddress level currFrameOffset frameIndex
        pathToPage forbiddenFrame addressToAdd st m hlt] at hne ⊢
      rw [dfsLeaves_stop c fuel level frameIndex pathToPage m.ram hlt, victimFold_nil]
      exact ⟨rfl, rfl, rfl, rfl, rfl, h0⟩
/-- The strict-improvement fold over a leaf list either never improves on
the start (and every distance is bounded by the start), or it returns the
first leaf attaining the maximum distance: every leaf before it is
strictly closer and every leaf after it no farther. -/
theorem victimFold_firstMax (c : Cfg) (pageNumber : Nat) :
    ∀ (leaves : List (Nat × Nat × Nat)) (acc : VictimAcc),
      (victimFold c pageNumber acc leaves = acc ∧
        ∀ leaf ∈ leaves, leafDistance c pageNumber leaf ≤ acc.maxCyclicalDistance) ∨
      (∃ l1 y l2, leaves = l1 ++ y :: l2 ∧
        victimFold c pageNumber acc leaves
          = ⟨leafDistance c pageNumber y, y.1, y.2.1, y.2.2⟩ ∧
        acc.maxCyclicalDistance < leafDistance c pageNumber y ∧
        (∀ z ∈ l1, leafDistance c pageNumber z < leafDistance c pageNumber y) ∧
        (∀ z ∈ l2, leafDistance c pageNumber z ≤ leafDistance c pageNumber y)) := by
  intro leaves
  induction leaves with
  | nil =>
    intro acc
    exact Or.inl ⟨victimFold_nil c pageNumber acc, by intro leaf h; cases h⟩
  | cons x rest ih =>
    intro acc
    have hstep : victimFold c pageNumber acc (x :: rest)
        = victimFold c pageNumber (victimStep c pageNumber acc x) rest := by
      unfold victimFold
      rw [List.foldl_cons]
    by_cases hx : leafDistance c pageNumber x > acc.maxCyclicalDistance
    · have hs : victimStep c pageNumber acc x
          = ⟨leafDistance c pageNumber x, x.1, x.2.1, x.2.2⟩ := by
        unfold victimStep
        rw [if_pos hx]
      rcases ih ⟨leafDistance c pageNumber x, x.1, x.2.1, x.2.2⟩ with
        ⟨h1, h2⟩ | ⟨l1, y, l2, heq, hfold, hgt, hl1, hl2⟩
      · refine Or.inr ⟨[], x, rest, rfl, ?_, hx, ?_, ?_⟩
        · rw [hstep, hs, h1]
        · intro z hz
          cases hz
        · intro z hz
          exact h2 z hz
      · refine Or.inr ⟨x :: l1, y, l2, by rw [heq]; rfl, ?_, ?_, ?_, hl2⟩
        · rw [hstep, hs, hfold]
        · exact lt_trans hx hgt
        · intro z hz
          rcases List.mem_cons.1 hz with hzx | hz'
          · rw [hzx]
            exact hgt
          · exact hl1 z hz'
    · have hs : victimStep c pageNumber acc x = acc := by
        unfold victimStep
        rw [if_neg hx]
      rcases ih acc with ⟨h1, h2⟩ | ⟨l1, y, l2, heq, hfold, hgt, hl1, hl2⟩
      · refine Or.inl ⟨?_, ?_⟩
        · rw [hstep, hs, h1]
        · intro z hz
          rcases List.mem_cons.1 hz with hzx | hz'
          · rw [hzx]
            exact not_lt.1 hx
          · exact h2 z hz'
      · refine Or.inr ⟨x :: l1, y, l2, by rw [heq]; rfl, ?_, hgt, ?_, hl2⟩
        · rw [hstep, hs, hfold]
        · intro z hz
          rcases List.mem_cons.1 hz with hzx | hz'
          · rw [hzx]
            exact lt_of_le_of_lt (not_lt.1 hx) hgt
          · exact hl1 z hz'

/-- Appending a write event preserves trace membership. -/
theorem trace_mono_PMwrite (m : Mem) (a : Nat) (v : Int) (e : PMEvent)
    (h : e ∈ m.trace) : e ∈ (PMwrite m a v).trace :=
  List.mem_append_left _ h

/-- Appending a restore event preserves trace membership. -/
theorem trace_mono_PMrestore (c : Cfg) (m : Mem) (f p : Nat) (e : PMEvent)
    (h : e ∈ m.trace) : e ∈ (PMrestore c m f p).trace :=
  List.mem_append_left _ h

/-- Zero-filling a frame preserves trace membership. -/
theorem trace_mono_zeroFoldl (e : PMEvent) (a : Nat) :
    ∀ (l : List Nat) (m : Mem), e ∈ m.trace →
      e ∈ (l.foldl (fun m offset => PMwrite m (a + offset) 0) m).trace := by
  intro l
  induction l with
  | nil =>
    intro m h
    exact h
  | cons x xs ih =>
    intro m h
    rw [List.foldl_cons]
    exact ih (PMwrite m (a + x) 0) (trace_mono_PMwrite m (a + x) 0 e h)

/-- `emptyFrame` preserves trace membership. -/
theorem trace_mono_emptyFrame (c : Cfg) (m : Mem) (a : Nat) (e : PMEvent)
    (h : e ∈ m.trace) : e ∈ (emptyFrame c m a).trace :=
  trace_mono_zeroFoldl e a (List.range (PAGE_SIZE c)) m h

/-- `PMevict` records its own evict event in the trace. -/
theorem mem_trace_PMevict_self (c : Cfg) (m : Mem) (f p : Nat) :
    PMEvent.evict f p ∈ (PMevict c m f p).trace :=
  List.mem_append_right _ (List.mem_singleton.2 rfl)

/-- C2 (amended).  Whenever `addFrame` takes the eviction case (the selector
adopted no all-zero table, `maxFrameIndex ≠ -1`, and no fresh frame is left,
`¬ maxFrameIndex + 1 < NUM_FRAMES`), and the depth-first scan visited at
least one resident leaf entry, the evicted page is one of the visited leaf
entries, its distance equals the recorded `maxCyclicalDistance`, it
maximizes the cyclic distance to the faulting page over all visited leaf
entries, every leaf visited before it in DFS order is strictly closer
(ties are broken in favour of the earliest DFS slot order, since the
running best is updated only on strictly greater distance), and the evict
call for it is issued to the backend.  The original claim is refuted by
`C2_evictionWithoutResidentLeaf`: when the scan visits no leaf, the
initial dummy candidate `(page 0, parent 0, frame 0)` is evicted instead,
so the claim only holds under the added proviso that a resident leaf was
visited (plus nonnegativity of the `int`-cast distances, which holds in
any configuration small enough for the cast not to wrap). -/
theorem C2_evictionChoosesFarthestVisitedLeaf (c : Cfg)
    (pageNumber currFrameOffset level forbiddenFrame : Nat) (currentFrameIndex : Int)
    (addressToAddTo : Nat) (m : Mem) (st : FindSt)
    (hsel : selectorResult c pageNumber currFrameOffset forbiddenFrame currentFrameIndex
      addressToAddTo m = st)
    (hNoAdopt : st.maxFrameIndex ≠ -1)
    (hFull : ¬ st.maxFrameIndex + 1 < (NUM_FRAMES c : Int))
    (hne : dfsLeaves c (TABLES_DEPTH c) 0 0 0 m.ram ≠ [])
    (hpos : ∀ leaf ∈ dfsLeaves c (TABLES_DEPTH c) 0 0 0 m.ram,
      0 ≤ leafDistance c pageNumber leaf) :
    (st.pageToEvict, st.parentOfPageToEvict, st.frameToEvict)
        ∈ dfsLeaves c (TABLES_DEPTH c) 0 0 0 m.ram ∧
    st.maxCyclicalDistance
        = leafDistance c pageNumber (st.pageToEvict, st.parentOfPageToEvict, st.frameToEvict) ∧
    (∀ leaf ∈ dfsLeaves c (TABLES_DEPTH c) 0 0 0 m.ram,
      leafDistance c pageNumber leaf
        ≤ leafDistance c pageNumber
            (st.pageToEvict, st.parentOfPageToEvict, st.frameToEvict)) ∧
    (∃ l1 l2, dfsLeaves c (TABLES_DEPTH c) 0 0 0 m.ram
        = l1 ++ (st.pageToEvict, st.parentOfPageToEvict, st.frameToEvict) :: l2 ∧
      ∀ z ∈ l1, leafDistance c pageNumber z
        < leafDistance c pageNumber
            (st.pageToEvict, st.parentOfPageToEvict, st.frameToEvict)) ∧
    PMEvent.evict st.frameToEvict st.pageToEvict
      ∈ (addFrame c pageNumber currFrameOffset level forbiddenFrame currentFrameIndex
          addressToAddTo m).2.2.trace := by
  have hres : (findFrame c pageNumber (TABLES_DEPTH c) (-1) 0 currFrameOffset 0 0
      forbiddenFrame addressToAddTo
      { maxFrameIndex := 0, maxCyclicalDistance := -1,
        pageToEvict := 0, parentOfPageToEvict := 0, frameToEvict := 0,
        zeroFrameIndex := u64ofInt (-1), currentFrameIndex := currentFrameIndex } m).1
      = st := hsel
  have h := findFrame_noAdoption c pageNumber (TABLES_DEPTH c) (-1) 0 currFrameOffset 0 0
    forbiddenFrame addressToAddTo
    { maxFrameIndex := 0, maxCyclicalDistance := -1,
      pageToEvict := 0, parentOfPageToEvict := 0, frameToEvict := 0,
      zeroFrameIndex := u64ofInt (-1), currentFrameIndex := currentFrameIndex } m
    (le_refl 0) (by rw [hres]; exact hNoAdopt)
  have hvic : victimOf st = victimFold c pageNumber ⟨-1, 0, 0, 0⟩
      (dfsLeaves c (TABLES_DEPTH c) 0 0 0 m.ram) := by
    rw [← hres]
    exact h.1
  have hEvMem : PMEvent.evict st.frameToEvict st.pageToEvict
      ∈ (addFrame c pageNumber currFrameOffset level forbiddenFrame currentFrameIndex
          addressToAddTo m).2.2.trace := by
    rw [addFrame_eq_selectorRun]
    have hs1 : (selectorRun c pageNumber currFrameOffset forbiddenFrame currentFrameIndex
        addressToAddTo m).1 = st := hsel
    simp only [hs1]
    rw [if_neg hNoAdopt, if_neg hFull]
    by_cases hL : level = TABLES_DEPTH c - 1
    · rw [if_pos hL]
      exact trace_mono_PMrestore _ _ _ _ _
        (trace_mono_PMwrite _ _ _ _
          (trace_mono_PMwrite _ _ _ _
            (mem_trace_PMevict_self _ _ _ _)))
    · rw [if_neg hL]
      exact trace_mono_emptyFrame _ _ _ _
        (trace_mono_PMwrite _ _ _ _
          (trace_mono_PMwrite _ _ _ _
            (mem_trace_PMevict_self _ _ _ _)))
  rcases victimFold_firstMax c pageNumber (dfsLeaves c (TABLES_DEPTH c) 0 0 0 m.ram)
      ⟨-1, 0, 0, 0⟩ with ⟨_, h2⟩ | ⟨l1, y, l2, heq, hfold, _, hl1, hl2⟩
  · obtain ⟨leaf, hmem⟩ := List.exists_mem_of_ne_nil _ hne
    have hb := h2 leaf hmem
    have hp := hpos leaf hmem
    simp only at hb
    omega
  · have e0 : victimOf st = ⟨leafDistance c pageNumber y, y.1, y.2.1, y.2.2⟩ :=
      hvic.trans hfold
    have e1 : st.maxCyclicalDistance = leafDistance c pageNumber y :=
      congrArg VictimAcc.maxCyclicalDistance e0
    have e2 : st.pageToEvict = y.1 :=
      congrArg VictimAcc.pageToEvict e0
    have e3 : st.parentOfPageToEvict = y.2.1 :=
      congrArg VictimAcc.parentOfPageToEvict e0
    have e4 : st.frameToEvict = y.2.2 :=
      congrArg VictimAcc.frameToEvict e0
    have etrip : (st.pageToEvict, st.parentOfPageToEvict, st.frameToEvict) = y := by
      rw [e2, e3, e4]
    refine ⟨?_, ?_, ?_, ?_, hEvMem⟩
    · rw [etrip, heq]
      exact List.mem_append_right _ (List.mem_cons_self y l2)
    · rw [etrip, e1]
    · intro leaf hmem
      rw [heq] at hmem
      rw [etrip]
      rcases List.mem_append.1 hmem with hin1 | hin2
      · exact le_of_lt (hl1 leaf hin1)
      · rcases List.mem_cons.1 hin2 with hy | hin2'
        · rw [hy]
        · exact hl2 leaf hin2'
    · refine ⟨l1, l2, ?_, ?_⟩
      · rw [etrip, heq]
      · intro z hz
        rw [etrip]
        exact hl1 z hz


/-- Witness for C2 (amended): on the full tree `c2wMem` with faulting
page 7, the selector takes the eviction case and evicts resident leaf
page 4 (parent frame 5, frame 7), the unique farthest visited leaf. -/
theorem C2_evictionChoosesFarthestVisitedLeaf_witness :
    (c2wSt.pageToEvict, c2wSt.parentOfPageToEvict, c2wSt.frameToEvict)
        ∈ dfsLeaves c144 (TABLES_DEPTH c144) 0 0 0 c2wMem.ram ∧
    c2wSt.maxCyclicalDistance = leafDistance c144 7
        (c2wSt.pageToEvict, c2wSt.parentOfPageToEvict, c2wSt.frameToEvict) ∧
    (∀ leaf ∈ dfsLeaves c144 (TABLES_DEPTH c144) 0 0 0 c2wMem.ram,
      leafDistance c144 7 leaf ≤ leafDistance c144 7
        (c2wSt.pageToEvict, c2wSt.parentOfPageToEvict, c2wSt.frameToEvict)) ∧
    (∃ l1 l2, dfsLeaves c144 (TABLES_DEPTH c144) 0 0 0 c2wMem.ram
        = l1 ++ (c2wSt.pageToEvict, c2wSt.parentOfPageToEvict, c2wSt.frameToEvict) :: l2 ∧
      ∀ z ∈ l1, leafDistance c144 7 z < leafDistance c144 7
        (c2wSt.pageToEvict, c2wSt.parentOfPageToEvict, c2wSt.frameToEvict)) ∧
    PMEvent.evict c2wSt.frameToEvict c2wSt.pageToEvict
      ∈ (addFrame c144 7 0 2 1 0 3 c2wMem).2.2.trace :=
  C2_evictionChoosesFarthestVisitedLeaf c144 7 0 2 1 0 3 c2wMem c2wSt rfl
    (by decide) (by decide) (by decide) (by decide)
